import Mathlib

/-!
# Verification of `tools/aircraft_tracker.py` (airsquawk)

A shallow embedding of the tracking / identity-resolution / range-record /
upload-pipeline core of `src/tools/aircraft_tracker.py`, together with
theorems settling the claims about that code.

Modelling conventions:
* Python values that can be `None`, the string `'N/A'`, a number or a string
  are embedded as the type `PV α` below.  A snapshot dictionary field is
  `Option (PV α)`: `Option.none` is an absent key, `some PV.none` is a key
  present with value `None`.
* Machine floats are modelled as exact numbers over a linear ordered field
  `α` with a floor; the discrete parts of the program are instantiated at
  `ℚ` (executable), the trigonometric geometry at `ℝ`.
* `datetime` values and `time.time()` timestamps are both modelled as
  numbers of seconds (the code only subtracts and compares them).
* String coordinates (`is_valid_position` accepts numeric strings) are not
  modelled as valid: positions are valid only when numerically present,
  matching every value the upstream JSON feed actually produces.
-/

namespace AirSquawk

/-- A Python scalar value as used by the tracker dictionaries:
`None`, the literal string `'N/A'`, a number, or some other string. -/
inductive PV (α : Type) where
  | none : PV α
  | na : PV α
  | num (x : α) : PV α
  | str (s : String) : PV α
  deriving DecidableEq, Repr

namespace PV

/-- Python truthiness of a `PV` value (`if v:`):
`None` and `''` and `0` are falsy, `'N/A'` is truthy. -/
def truthy {α : Type} [Zero α] [DecidableEq α] : PV α → Bool
  | .none => false
  | .na => true
  | .num x => x ≠ 0
  | .str s => s ≠ ""

/-- Python `v in (None, 'N/A', '')`. -/
def emptyish {α : Type} : PV α → Bool
  | .none => true
  | .na => true
  | .str s => s = ""
  | .num _ => false

/-- `v is not None`. -/
def isNotNone {α : Type} : PV α → Bool
  | .none => false
  | _ => true

/-- Is the value an actual number? -/
def isNum {α : Type} : PV α → Bool
  | .num _ => true
  | _ => false

/-- Numeric value with a default for the non-numeric cases.  Used only where
the surrounding code guarantees a numeric (or `'N/A'`/`None`) value. -/
def toNum {α : Type} [Zero α] : PV α → α
  | .num x => x
  | _ => 0

end PV

/-- `aircraft.get(key)` — absent keys give Python `None`. -/
def pyGet {α : Type} (v : Option (PV α)) : PV α := v.getD PV.none

/-- `aircraft.get(key, default)`. -/
def pyGetD {α : Type} (v : Option (PV α)) (d : PV α) : PV α := v.getD d

/-- Python `str.strip()` (whitespace at both ends), implemented on the
character list so that it evaluates inside the kernel. -/
def pyStrip (s : String) : String :=
  String.mk (((s.data.dropWhile Char.isWhitespace).reverse.dropWhile
    Char.isWhitespace).reverse)

/-- `str.endswith(suffix)`. -/
def strEndsWith (s suffix : String) : Bool := suffix.data.isSuffixOf s.data

/-- `str.lower()` for the ASCII range (hex identifiers). -/
def strToLower (s : String) : String :=
  String.mk (s.data.map (fun c =>
    if 'A' ≤ c ∧ c ≤ 'Z' then Char.ofNat (c.toNat + 32) else c))

/-- Code-point lexicographic `<` on character lists (Python `str` order). -/
def charListLt : List Char → List Char → Bool
  | [], [] => false
  | [], _ :: _ => true
  | _ :: _, [] => false
  | a :: as, b :: bs => if a < b then true else if b < a then false else charListLt as bs

/-- Python `<` on strings. -/
def strLtB (a b : String) : Bool := charListLt a.data b.data

/-- Python `<=` on strings. -/
def strLeB (a b : String) : Bool := strLtB a b || a == b

/-- Stable insertion sort, standing in for Python's stable `sorted`
(the library merge sort does not evaluate inside the kernel). -/
def insertLe {β : Type} (le : β → β → Bool) (x : β) : List β → List β
  | [] => [x]
  | y :: ys => if le x y then x :: y :: ys else y :: insertLe le x ys

/-- `sorted(l, key=...)` as a stable insertion sort. -/
def sortLe {β : Type} (le : β → β → Bool) (l : List β) : List β :=
  l.foldr (insertLe le) []

variable {α : Type} [LinearOrderedField α] [FloorRing α]

/-- `is_valid_position`: both coordinates are numbers, latitude in
[-90, 90] and longitude in [-180, 180].  (`None` and `'N/A'` rejected.) -/
def is_valid_position (lat lon : PV α) : Bool :=
  match lat, lon with
  | .num la, .num lo => -90 ≤ la && la ≤ 90 && -180 ≤ lo && lo ≤ 180
  | _, _ => false

/-- `get_sector`: `int(bearing // 30) % 12`. -/
def get_sector (bearing : α) : ℤ := ⌊bearing / 30⌋ % 12

/-- `get_altitude_zone`: 0 for negative altitude, else `int(altitude // 5000)`. -/
def get_altitude_zone (altitude_ft : α) : ℤ :=
  if altitude_ft < 0 then 0 else ⌊altitude_ft / 5000⌋

/-- Round-half-to-even on an exact value, as Python's `round` (the model
works on exact rationals/reals rather than binary floats). -/
def roundHalfEven (y : α) : ℤ :=
  let f := ⌊y⌋
  let r := y - f
  if r < 1/2 then f
  else if 1/2 < r then f + 1
  else if f % 2 = 0 then f else f + 1

/-- Python `round(x, 2)`. -/
def pyRound2 (x : α) : α := (roundHalfEven (100 * x) : α) / 100

/-- Python float `%` for a positive modulus: `a - b * ⌊a / b⌋`. -/
def pyFMod (a b : α) : α := a - b * ⌊a / b⌋

/-! ## Real geometry (`calculate_distance`, `calculate_bearing`,
`calculate_slant_distance`) -/

/-- `math.radians`. -/
noncomputable def radians (x : ℝ) : ℝ := x * Real.pi / 180

/-- `math.atan2(y, x)` (standard two-argument arctangent convention). -/
noncomputable def atan2 (y x : ℝ) : ℝ :=
  if 0 < x then Real.arctan (y / x)
  else if x < 0 then
    (if 0 ≤ y then Real.arctan (y / x) + Real.pi else Real.arctan (y / x) - Real.pi)
  else
    (if 0 < y then Real.pi / 2 else if y < 0 then -(Real.pi / 2) else 0)

/-- `calculate_distance`: Haversine great-circle distance in nautical
miles, Earth radius 3440.065 NM. -/
noncomputable def calculate_distance (lat1 lon1 lat2 lon2 : ℝ) : ℝ :=
  let R : ℝ := 3440.065
  let lat1_rad := radians lat1
  let lat2_rad := radians lat2
  let delta_lat := radians (lat2 - lat1)
  let delta_lon := radians (lon2 - lon1)
  let a := Real.sin (delta_lat / 2) ^ 2 +
    Real.cos lat1_rad * Real.cos lat2_rad * Real.sin (delta_lon / 2) ^ 2
  let c := 2 * atan2 (Real.sqrt a) (Real.sqrt (1 - a))
  R * c

/-- `calculate_bearing`: spherical bearing from point 1 to point 2 in
degrees, normalised to [0, 360). -/
noncomputable def calculate_bearing (lat1 lon1 lat2 lon2 : ℝ) : ℝ :=
  let lat1_rad := radians lat1
  let lat2_rad := radians lat2
  let delta_lon := radians (lon2 - lon1)
  let x := Real.sin delta_lon * Real.cos lat2_rad
  let y := Real.cos lat1_rad * Real.sin lat2_rad -
    Real.sin lat1_rad * Real.cos lat2_rad * Real.cos delta_lon
  let bearing_rad := atan2 x y
  let bearing_deg := bearing_rad * 180 / Real.pi
  pyFMod (bearing_deg + 360) 360

/-- `calculate_slant_distance`: 3-D distance from ground distance and
altitude difference (feet to NM at 6076.12 ft/NM). -/
noncomputable def calculate_slant_distance (positional_distance altitude_ft receiver_alt_ft : ℝ) : ℝ :=
  let altitude_diff_nm := (altitude_ft - receiver_alt_ft) / 6076.12
  Real.sqrt (positional_distance ^ 2 + altitude_diff_nm ^ 2)

/-- The geometric kernel used by the tracking logic.  The state machine is
stated over an arbitrary kernel (its properties do not depend on the
trigonometry); `realGeo` instantiates it with the functions above. -/
structure GeoFns (α : Type) where
  dist : α → α → α → α → α
  bearing : α → α → α → α → α
  slant : α → α → α → α

/-- The geometry actually used by `aircraft_tracker.py`. -/
noncomputable def realGeo : GeoFns ℝ where
  dist := calculate_distance
  bearing := calculate_bearing
  slant := calculate_slant_distance

/-- A dummy kernel used to instantiate kernel-independent theorems on
executable rational inputs. -/
def zeroGeo : GeoFns ℚ where
  dist := fun _ _ _ _ => 0
  bearing := fun _ _ _ _ => 0
  slant := fun _ _ _ => 0

/-! ## Data model -/

/-- One aircraft snapshot from `/data/aircraft.json`.  Each dictionary
field is `Option (PV α)`: `Option.none` is an absent key. -/
structure Snapshot (α : Type) where
  hex : String := ""
  flight : Option (PV α) := Option.none
  squawk : Option (PV α) := Option.none
  r : Option (PV α) := Option.none
  t : Option (PV α) := Option.none
  alt_baro : Option (PV α) := Option.none
  gs : Option (PV α) := Option.none
  baro_rate : Option (PV α) := Option.none
  track : Option (PV α) := Option.none
  messages : Option (PV α) := Option.none
  seen : Option (PV α) := Option.none
  rssi : Option (PV α) := Option.none
  lat : Option (PV α) := Option.none
  lon : Option (PV α) := Option.none
  r_dst : Option (PV α) := Option.none
  dbFlags : Option (PV α) := Option.none
  deriving DecidableEq

/-- One `aircraft_tracking[hex]` entry (and, with `squawk_changed`, one
record of the `pending_aircraft` upload buffer). -/
structure Entry (α : Type) where
  first_seen : α
  last_seen : α
  hex : String
  flight : String
  registration : PV α
  type : PV α
  squawk : PV α
  alt_baro : PV α
  gs : PV α
  baro_rate : PV α
  track : PV α
  messages : PV α
  seen : PV α
  rssi : PV α
  lat : PV α
  lon : PV α
  r_dst : PV α
  dbFlags : PV α
  position_timestamp : α
  data_quality : PV α
  squawk_changed : Bool := false
  deriving DecidableEq

/-- An entry of the startup `history_cache` (only truthy values are
stored by `load_history_data`; callsigns are stored stripped). -/
structure HistEntry (α : Type) where
  flight : Option String := Option.none
  squawk : Option (PV α) := Option.none
  r : Option (PV α) := Option.none
  t : Option (PV α) := Option.none
  deriving DecidableEq

/-- A per-hex ICAO cache object `{registration, type, timestamp}`;
`timestamp` is `Option.none` when absent or unparseable (both make
`get_icao_cache_from_s3` return `None`). -/
structure IcaoCacheEntry (α : Type) where
  registration : Option (PV α) := Option.none
  type : Option (PV α) := Option.none
  timestamp : Option α := Option.none
  deriving DecidableEq

/-- The external lookup environment of the identity-resolution chain. -/
structure Env (α : Type) where
  s3_enabled : Bool
  history : String → Option (HistEntry α)
  /-- `aircraft_type_database.json` entry for a lower-cased hex:
  `(entry.get('registration'), entry.get('type'))`. -/
  s3db : String → Option (PV α × PV α)
  icaoCacheRaw : String → Option (IcaoCacheEntry α)
  /-- `get_db_info` result: the `r`/`t` keys of the static-database
  entry, `(Option.none, Option.none)` when nothing was found. -/
  staticDb : String → Option (PV α) × Option (PV α)

/-! ## Identity resolution (lines 392-445 of `update_aircraft_tracking`,
`get_aircraft_type_from_s3_db`, `get_icao_cache_from_s3`) -/

/-- `get_icao_cache_from_s3`: `None` unless S3 is enabled, the object
exists, carries a parseable timestamp and `(now - timestamp).days < 7`. -/
def get_icao_cache_from_s3 (env : Env α) (now : α) (hex_code : String) :
    Option (IcaoCacheEntry α) :=
  if ¬env.s3_enabled then Option.none
  else match env.icaoCacheRaw hex_code with
    | Option.none => Option.none
    | some e =>
      match e.timestamp with
      | Option.none => Option.none
      | some ts => if ⌊(now - ts) / 86400⌋ < 7 then some e else Option.none

/-- `get_aircraft_type_from_s3_db`: `{}` unless S3 is enabled; else the
database entry for the lower-cased hex. -/
def get_aircraft_type_from_s3_db (env : Env α) (hex_code : String) :
    Option (PV α × PV α) :=
  if ¬env.s3_enabled then Option.none else env.s3db (strToLower hex_code)

/-- Result of the registration/type resolution chain for a new hex,
with one consultation flag per cache tier. -/
structure IdentResult (α : Type) where
  registration : PV α
  type : PV α
  consulted_s3db : Bool
  consulted_icao : Bool
  consulted_static : Bool
  cache_write : Bool
  deriving DecidableEq

/-- Stage 1: live values with history-cache backfill (lines 403-413). -/
def identAfterHistory (env : Env α) (hex_code : String) (snap : Snapshot α) : PV α × PV α :=
  let registration := pyGetD snap.r PV.na
  let aircraft_type := pyGetD snap.t PV.na
  match env.history hex_code with
  | Option.none => (registration, aircraft_type)
  | some hist =>
    (match registration, hist.r with
      | PV.na, some v => v
      | r, _ => r,
     match aircraft_type, hist.t with
      | PV.na, some v => v
      | t, _ => t)

/-- Stage 2: S3 bulk aircraft-type database (lines 415-421).  The lookup
itself is unconditional; its values are used only for unresolved fields. -/
def identAfterS3db (env : Env α) (hex_code : String) (p : PV α × PV α) : PV α × PV α :=
  match get_aircraft_type_from_s3_db env hex_code with
  | Option.none => p
  | some (r, t) =>
    (if p.1.emptyish then r else p.1,
     if p.2.emptyish then t else p.2)

/-- Stage 3: per-hex S3 ICAO cache (lines 423-433), also unconditional. -/
def identAfterIcao (env : Env α) (now : α) (hex_code : String) (p : PV α × PV α) : PV α × PV α :=
  match get_icao_cache_from_s3 env now hex_code with
  | Option.none => p
  | some e =>
    (if p.1.emptyish then (e.registration.getD p.1) else p.1,
     if p.2.emptyish then (e.type.getD p.2) else p.2)

/-- Stage 4: static prefix database (lines 435-441), consulted only when
a field is still the literal `'N/A'`. -/
def identAfterStatic (env : Env α) (hex_code : String) (p : PV α × PV α) : PV α × PV α :=
  if p.1 = PV.na ∨ p.2 = PV.na then
    let db_info := env.staticDb hex_code
    (match p.1, db_info.1 with
      | PV.na, some v => v
      | r, _ => r,
     match p.2, db_info.2 with
      | PV.na, some v => v
      | t, _ => t)
  else p

/-- The full resolution chain with consultation flags. -/
def resolveIdentity (env : Env α) (now : α) (hex_code : String) (snap : Snapshot α) :
    IdentResult α :=
  let p1 := identAfterHistory env hex_code snap
  let p2 := identAfterS3db env hex_code p1
  let p3 := identAfterIcao env now hex_code p2
  let p4 := identAfterStatic env hex_code p3
  { registration := p4.1
    type := p4.2
    consulted_s3db := env.s3_enabled
    consulted_icao := env.s3_enabled
    consulted_static := p3.1 = PV.na ∨ p3.2 = PV.na
    cache_write := p4.1 ≠ PV.na ∨ p4.2 ≠ PV.na }

/-! ## The tracking table (`update_aircraft_tracking`) -/

/-- Python-dict lookup on an association list. -/
def dictFind {κ ν : Type} [DecidableEq κ] (m : List (κ × ν)) (k : κ) : Option ν :=
  (m.find? (fun p => p.1 = k)).map (fun p => p.2)

/-- Python-dict assignment: replace in place, or append a new key. -/
def dictInsert {κ ν : Type} [DecidableEq κ] (m : List (κ × ν)) (k : κ) (v : ν) :
    List (κ × ν) :=
  if (dictFind m k).isSome then
    m.map (fun p => if p.1 = k then (k, v) else p)
  else m ++ [(k, v)]

/-- `aircraft.get(k) if aircraft.get(k) not in (None, 'N/A') else None`
(the per-field normalisation used when inserting a new aircraft). -/
def keepOrNone (v : Option (PV α)) : PV α :=
  if pyGet v = PV.none ∨ pyGet v = PV.na then PV.none else pyGet v

/-- The new-aircraft branch (lines 391-490): builds the freshly inserted
`aircraft_tracking` entry.  `Except.error` models the `AttributeError`
raised by `.strip()` on a truthy non-string `flight` value. -/
def insertAircraft (env : Env α) (G : GeoFns α) (recvLat recvLon now : α)
    (snap : Snapshot α) : Except Unit (Entry α) :=
  match (if (pyGet snap.flight).truthy then
          match pyGet snap.flight with
          | PV.str s => Except.ok (pyStrip s)
          | _ => Except.error ()
        else Except.ok "N/A" : Except Unit String) with
  | Except.error u => Except.error u
  | Except.ok flight0 =>
    let squawk0 := pyGetD snap.squawk PV.na
    let (flight1, squawk1) := match env.history snap.hex with
      | Option.none => (flight0, squawk0)
      | some hist =>
        (if flight0 = "N/A" then hist.flight.getD flight0 else flight0,
         match squawk0, hist.squawk with
         | PV.na, some v => v
         | s, _ => s)
    let ident := resolveIdentity env now snap.hex snap
    let d0 := pyGetD snap.r_dst PV.na
    let distance := if d0 = PV.na ∨ d0 = PV.none then
        (if is_valid_position (pyGet snap.lat) (pyGet snap.lon)
            ∧ recvLat ≠ 0 ∧ recvLon ≠ 0 then
          PV.num (pyRound2 (G.dist recvLat recvLon (pyGet snap.lat).toNum (pyGet snap.lon).toNum))
        else d0)
      else d0
    Except.ok
      { first_seen := now
        last_seen := now
        hex := snap.hex
        flight := flight1
        registration := if ident.registration ≠ PV.na then ident.registration else PV.none
        type := if ident.type ≠ PV.na then ident.type else PV.none
        squawk := if squawk1 ≠ PV.na then squawk1 else PV.none
        alt_baro := keepOrNone snap.alt_baro
        gs := keepOrNone snap.gs
        baro_rate := keepOrNone snap.baro_rate
        track := keepOrNone snap.track
        messages := pyGetD snap.messages (PV.num 0)
        seen := keepOrNone snap.seen
        rssi := keepOrNone snap.rssi
        lat := keepOrNone snap.lat
        lon := keepOrNone snap.lon
        r_dst := if distance = PV.none ∨ distance = PV.na then PV.none else distance
        dbFlags := pyGetD snap.dbFlags (PV.num 0)
        position_timestamp := now
        data_quality := PV.none }

/-- The callsign merge of the update branch (lines 495-503): update only
on a non-empty stripped value; `.strip()` on a truthy non-string, or on
the `None` obtained by `aircraft.get('flight', '')` when the key is
present as `null` and the stored callsign is `'N/A'`, raises
(`Except.error` carries the entry as mutated so far). -/
def flightMerge (snap : Snapshot α) (eStart : Entry α) : Except (Entry α) (Entry α) :=
  let fv := pyGet snap.flight
  if fv.truthy then
    match fv with
    | PV.str s =>
      Except.ok (if pyStrip s ≠ "" then {eStart with flight := pyStrip s} else eStart)
    | _ => Except.error eStart
  else if eStart.flight = "N/A" then
    match pyGetD snap.flight (PV.str "") with
    | PV.str s =>
      Except.ok (if pyStrip s ≠ "" then {eStart with flight := pyStrip s} else eStart)
    | _ => Except.error eStart
  else Except.ok eStart

/-- The stored-lat/lon merge of the update branch (lines 529-538): keep
the new value when the key is present (even an invalid one), else keep
the old value, with a stored `None` normalised to the `'N/A'` marker. -/
def mergeLatLon (old new : PV α) : PV α :=
  if new ≠ PV.none then new
  else if old = PV.none then PV.na else old

/-- The field merges of the update branch (lines 504-559): returns the
merged entry, the `squawk_changed` flag, and the `position_changed`
flag. -/
def mergeFields (G : GeoFns α) (recvLat recvLon : α) (snap : Snapshot α)
    (e1 : Entry α) : Entry α × Bool × Bool :=
    let old_squawk := e1.squawk
    let e2 := {e1 with
      registration := pyGetD snap.r e1.registration
      type := pyGetD snap.t e1.type
      squawk := pyGetD snap.squawk old_squawk}
    let new_squawk := e2.squawk
    let squawk_has_changed : Bool :=
      decide (new_squawk ≠ PV.none) && decide (old_squawk ≠ new_squawk)
    let e3 := {e2 with
      alt_baro := pyGetD snap.alt_baro e2.alt_baro
      gs := pyGetD snap.gs e2.gs
      baro_rate := pyGetD snap.baro_rate e2.baro_rate
      track := pyGetD snap.track e2.track
      messages := pyGetD snap.messages e2.messages
      seen := pyGetD snap.seen e2.seen
      rssi := pyGetD snap.rssi e2.rssi}
    let old_lat := e3.lat
    let old_lon := e3.lon
    let new_lat := pyGet snap.lat
    let new_lon := pyGet snap.lon
    let e4 := {e3 with
      lat := mergeLatLon e3.lat new_lat
      lon := mergeLatLon e3.lon new_lon}
    let position_changed : Bool :=
      is_valid_position new_lat new_lon &&
        (decide (old_lat ≠ new_lat) || decide (old_lon ≠ new_lon))
    let d0 := pyGetD snap.r_dst PV.na
    let distance := if d0 = PV.na ∨ d0 = PV.none then
        (if is_valid_position (pyGet snap.lat) (pyGet snap.lon)
            ∧ recvLat ≠ 0 ∧ recvLon ≠ 0 then
          PV.num (pyRound2 (G.dist recvLat recvLon new_lat.toNum new_lon.toNum))
        else d0)
      else d0
    let e5 := {e4 with r_dst := distance, dbFlags := pyGetD snap.dbFlags e4.dbFlags}
    (e5, squawk_has_changed, position_changed)

/-- The tail of the update branch (lines 561-587): the emitted
`ObservationRecord` with its data quality, and the final stored entry. -/
def updateCore (G : GeoFns α) (recvLat recvLon now : α) (snap : Snapshot α)
    (e1 : Entry α) : Entry α × Entry α × Bool :=
    let m := mergeFields G recvLat recvLon snap e1
    let e5 := m.1
    let squawk_has_changed := m.2.1
    let position_changed := m.2.2
    let new_lat := pyGet snap.lat
    let new_lon := pyGet snap.lon
    let outRec := {e5 with squawk_changed := squawk_has_changed}
    if is_valid_position new_lat new_lon then
      ({e5 with lat := new_lat, lon := new_lon, position_timestamp := now},
        {outRec with lat := new_lat, lon := new_lon, data_quality := PV.str "GPS"},
        position_changed)
    else
      let time_since := now - e5.position_timestamp
      if time_since ≤ 5 ∧ is_valid_position e5.lat e5.lon then
        (e5, {outRec with lat := e5.lat, lon := e5.lon, data_quality := PV.str "GPS approx"},
          position_changed)
      else
        (e5, {outRec with data_quality := PV.str "No position"}, position_changed)

/-- The update branch for an already-tracked aircraft (lines 492-587).
Returns the new stored entry, the emitted `ObservationRecord` (appended to
`pending_aircraft`) and the `position_changed` flag; `Except.error`
carries the partially-mutated entry left behind when the callsign merge
raises. -/
def updateExisting (G : GeoFns α) (recvLat recvLon now : α) (snap : Snapshot α)
    (e0 : Entry α) : Except (Entry α) (Entry α × Entry α × Bool) :=
  match flightMerge snap {e0 with last_seen := now} with
  | Except.error e => Except.error e
  | Except.ok e1 => Except.ok (updateCore G recvLat recvLon now snap e1)

/-- The whole mutable tracking state touched by one poll tick
(FlightAware-URL side records are kept as entries; their string
formatting is not modelled). -/
structure TrackState (α : Type) where
  table : List (String × Entry α) := []
  buffer : List (Entry α) := []
  running_position_count : ℕ := 0
  positions_last_minute : List α := []
  positions_last_10min : List α := []
  positions_last_hour : List α := []
  positions_last_day : List α := []
  longVisible : List (Entry α) := []
  deriving DecidableEq

/-- `track_position_for_stats`: append the timestamp to the four sliding
windows and prune each to its horizon. -/
def track_position_for_stats (ts : α) (st : TrackState α) : TrackState α :=
  { st with
    positions_last_minute :=
      (st.positions_last_minute ++ [ts]).filter (fun t => decide (ts - 60 ≤ t))
    positions_last_10min :=
      (st.positions_last_10min ++ [ts]).filter (fun t => decide (ts - 600 ≤ t))
    positions_last_hour :=
      (st.positions_last_hour ++ [ts]).filter (fun t => decide (ts - 3600 ≤ t))
    positions_last_day :=
      (st.positions_last_day ++ [ts]).filter (fun t => decide (ts - 86400 ≤ t)) }

/-- Processing of one snapshot inside the `for aircraft in current_aircraft`
loop.  An `Except.error` result is the state left behind by an uncaught
exception (which aborts the loop and the sweep). -/
def processSnapshot (env : Env α) (G : GeoFns α) (recvLat recvLon now : α)
    (st : TrackState α) (snap : Snapshot α) : Except (TrackState α) (TrackState α) :=
  if snap.hex = "" then Except.ok st
  else match dictFind st.table snap.hex with
  | Option.none =>
    match insertAircraft env G recvLat recvLon now snap with
    | Except.error _ => Except.error st
    | Except.ok entry =>
      let st1 := {st with table := dictInsert st.table snap.hex entry}
      let st2 := if is_valid_position (pyGet snap.lat) (pyGet snap.lon) then
          track_position_for_stats now
            {st1 with running_position_count := st1.running_position_count + 1}
        else st1
      Except.ok {st2 with buffer := st2.buffer ++ [entry]}
  | some e =>
    match updateExisting G recvLat recvLon now snap e with
    | Except.error e' => Except.error {st with table := dictInsert st.table snap.hex e'}
    | Except.ok (e', outRec, position_changed) =>
      let st1 := {st with table := dictInsert st.table snap.hex e'}
      let st2 := if position_changed then
          track_position_for_stats now
            {st1 with running_position_count := st1.running_position_count + 1}
        else st1
      Except.ok {st2 with buffer := st2.buffer ++ [outRec]}

/-- The timeout sweep at the end of `update_aircraft_tracking`
(lines 589-613): drop aircraft unseen for more than 30 s, saving a side
record for those first seen at least 300 s ago. -/
def evictionSweep (now : α) (st : TrackState α) : TrackState α :=
  let to_save := (st.table.filter (fun p =>
    decide (30 < now - p.2.last_seen) && decide (300 ≤ now - p.2.first_seen))).map (fun p => p.2)
  { st with
    table := st.table.filter (fun p => !decide (30 < now - p.2.last_seen))
    longVisible := st.longVisible ++ to_save }

/-- The snapshot loop of `update_aircraft_tracking`, short-circuiting on
an uncaught exception. -/
def processAll (env : Env α) (G : GeoFns α) (recvLat recvLon now : α)
    (st : TrackState α) : List (Snapshot α) → Except (TrackState α) (TrackState α)
  | [] => Except.ok st
  | snap :: rest =>
    match processSnapshot env G recvLat recvLon now st snap with
    | Except.error st' => Except.error st'
    | Except.ok st' => processAll env G recvLat recvLon now st' rest

/-- `update_aircraft_tracking(current_aircraft)`: process every snapshot,
then run the eviction sweep (the sweep is skipped when an exception
escapes the loop). -/
def update_aircraft_tracking (env : Env α) (G : GeoFns α) (recvLat recvLon now : α)
    (st : TrackState α) (snaps : List (Snapshot α)) :
    Except (TrackState α) (TrackState α) :=
  match processAll env G recvLat recvLon now st snaps with
  | Except.error st' => Except.error st'
  | Except.ok st' => Except.ok (evictionSweep now st')

/-! ## Sector/altitude reception records (`update_sector_altitude_records`) -/

/-- The fields of the aircraft dictionary stored inside a reception
record that are ever read back (the source stores a full dict copy; only
these keys are consumed by the writers and the KML/3-D generators). -/
structure ARec (α : Type) where
  hex : String := ""
  flight : PV α := PV.na
  registration : PV α := PV.na
  type : PV α := PV.na
  alt_baro : PV α := PV.none
  r_dst : PV α := PV.none
  deriving DecidableEq

/-- The aircraft fields of a tracking entry as seen by the record store. -/
def Entry.toARec (e : Entry α) : ARec α :=
  { hex := e.hex, flight := PV.str e.flight, registration := e.registration,
    type := e.type, alt_baro := e.alt_baro, r_dst := e.r_dst }

/-- One `sector_altitude_records` value. -/
structure SectorRecord (α : Type) where
  aircraft : ARec α
  slant_distance : α
  positional_distance : PV α
  bearing : α
  altitude_zone : ℤ
  timestamp : α
  deriving DecidableEq

/-- The reception-record map, keyed by `(sector, altitude_zone)`. -/
abbrev RecMap (α : Type) := List ((ℤ × ℤ) × SectorRecord α)

/-- The altitude used for zoning: `aircraft_info.get('alt_baro', 0)` with
`'N/A'` mapped to 0.  (Both call sites guarantee a numeric value; a
non-numeric `None` would raise in Python and cannot reach this point.) -/
def recordAltitude (aircraft_info : ARec α) : α :=
  match aircraft_info.alt_baro with
  | PV.num x => x
  | _ => 0

/-- `update_sector_altitude_records` (lines 766-792): replace the record
of the `(sector, zone)` bin iff it is absent or strictly beaten. -/
def update_sector_altitude_records (now : α) (records : RecMap α)
    (aircraft_info : ARec α) (slant_dist bearing : α) : RecMap α :=
  let sector := get_sector bearing
  let altitude_zone := get_altitude_zone (recordAltitude aircraft_info)
  let record_key := (sector, altitude_zone)
  match dictFind records record_key with
  | Option.none =>
    dictInsert records record_key
      { aircraft := aircraft_info, slant_distance := slant_dist,
        positional_distance := aircraft_info.r_dst, bearing := bearing,
        altitude_zone := altitude_zone, timestamp := now }
  | some stored =>
    if slant_dist > stored.slant_distance then
      dictInsert records record_key
        { aircraft := aircraft_info, slant_distance := slant_dist,
          positional_distance := aircraft_info.r_dst, bearing := bearing,
          altitude_zone := altitude_zone, timestamp := now }
    else records

/-! ## Minute-file upload and the per-tick flush (`upload_minute_file_to_s3`
and the main-loop blocks at lines 2700-2703 / 2720-2723) -/

/-- The object-store side state touched by minute uploads.  `uploaded`
lists the objects written (key, serialised records); serialisation of the
individual JSON fields is not needed by any claim and the buffer entries
are kept as the object content. -/
structure UploadState (α : Type) where
  last_minute_upload_time : α
  s3_upload_count : ℕ := 0
  uploaded : List (String × List (Entry α)) := []
  deriving DecidableEq

/-- `upload_minute_file_to_s3`: no-op when S3 is disabled or the buffer is
empty; on success writes one object and stamps the upload time; a failed
`put_object` is caught and logged, leaving every global unchanged. -/
def upload_minute_file_to_s3 (enabled putOk : Bool) (now : α) (key : String)
    (aircraft_buffer : List (Entry α)) (up : UploadState α) : UploadState α :=
  if ¬enabled then up
  else if aircraft_buffer = [] then up
  else if putOk then
    { last_minute_upload_time := now
      s3_upload_count := up.s3_upload_count + 1
      uploaded := up.uploaded ++ [(key, aircraft_buffer)] }
  else up

/-- The two minute-flush blocks of one main-loop tick (lines 2700-2703 and
2720-2723): each calls `upload_minute_file_to_s3` when 60 s have elapsed
and then clears `pending_aircraft` unconditionally.  Returns the buffer
and upload state after the tick. -/
def minuteFlushTick (enabled putOk1 putOk2 : Bool) (now : α) (key : String)
    (pending_aircraft : List (Entry α)) (up : UploadState α) :
    List (Entry α) × UploadState α :=
  let step1 := if enabled ∧ 60 ≤ now - up.last_minute_upload_time then
      ([], upload_minute_file_to_s3 enabled putOk1 now key pending_aircraft up)
    else (pending_aircraft, up)
  if enabled ∧ 60 ≤ now - step1.2.last_minute_upload_time then
    ([], upload_minute_file_to_s3 enabled putOk2 now key step1.1 step1.2)
  else step1

/-! ## Hourly rollup (`rollup_and_cleanup_s3_files`, lines 1959-2064) -/

/-- One line of a minute object as seen by the rollup: either a JSON
record with its `ICAO` / `Last_Seen` fields (`Option.none` for an absent
or `null` key) and its raw text, or an unparseable line. -/
inductive RollupLine where
  | json (icao lastSeen : Option String) (raw : String)
  | bad (raw : String)
  deriving DecidableEq

/-- Deduplication key: `(icao, last_seen)` tuples, or the integer keys
used for unparseable lines. -/
abbrev RKey := (String × String) ⊕ ℕ

/-- Processing of one non-empty line (lines 2010-2024): keyed insert with
last-one-wins, integer key `len(all_records)` for unparseable lines,
records without both key fields silently dropped. -/
def rollupLine (all_records : List (RKey × String)) : RollupLine → List (RKey × String)
  | RollupLine.json icao lastSeen raw =>
    match icao, lastSeen with
    | some i, some l =>
      if i ≠ "" ∧ l ≠ "" then dictInsert all_records (Sum.inl (i, l)) (pyStrip raw)
      else all_records
    | _, _ => all_records
  | RollupLine.bad raw => dictInsert all_records (Sum.inr all_records.length) (pyStrip raw)

/-- The deduplication key carried by a line, when it has one (both
`ICAO` and `Last_Seen` present and truthy). -/
def lineKey : RollupLine → Option (String × String)
  | RollupLine.json (some i) (some l) _ =>
    if i ≠ "" ∧ l ≠ "" then some (i, l) else Option.none
  | _ => Option.none

/-- The raw text of a line. -/
def lineRaw : RollupLine → String
  | RollupLine.json _ _ raw => raw
  | RollupLine.bad raw => raw

/-- The stripped text of the last line carrying key `k` in a processed
line sequence. -/
def lastKeyed (k : String × String) (lines : List RollupLine) : Option String :=
  ((lines.filter (fun l => lineKey l = some k)).map (fun l => pyStrip (lineRaw l))).getLast?

/-- Python's sort key for the consolidated lines:
`x if isinstance(x, tuple) else (str(x),)`, compared tuple-wise. -/
def rkeySortLE (a b : RKey) : Bool :=
  match a, b with
  | Sum.inl (a1, a2), Sum.inl (b1, b2) => strLtB a1 b1 || (a1 == b1 && strLeB a2 b2)
  | Sum.inl (a1, _), Sum.inr n => strLtB a1 (Nat.repr n) || a1 == Nat.repr n
  | Sum.inr n, Sum.inl (b1, _) => strLtB (Nat.repr n) b1 || (Nat.repr n == b1)
  | Sum.inr n, Sum.inr m => strLeB (Nat.repr n) (Nat.repr m)

/-- The outcome of one `rollup_and_cleanup_s3_files` run. -/
structure RollupResult where
  hourly : Option (List String)
  deleted : List String
  records : List (RKey × String)
  deriving DecidableEq

/-- The content lines obtained from the minute files that could be read,
in sorted key order (unreadable objects are skipped with a logged error). -/
def rollupLines (minute_files : List (String × Except Unit (List RollupLine))) :
    List RollupLine :=
  ((sortLe (fun a b => strLeB a.1 b.1) minute_files).filterMap
    (fun f => f.2.toOption)).flatten

/-- The code below the hour-transition guard (lines 1974-2061): list the
minute objects of the previous hour, consolidate with deduplication,
upload the hourly object when any records exist (a raised `put_object`
aborts the function before any deletion), then delete the minute files.
In the source this block is unreachable: the guard read at line 1971
raises before it (see `rollup_and_cleanup_s3_files`). -/
def rollupTransition (hourly_filename : String)
    (listed : List (String × Except Unit (List RollupLine))) (putOk : Bool) :
    RollupResult :=
  let minute_files := listed.filter
    (fun f => f.1 ≠ hourly_filename && strEndsWith f.1 ".json")
  if minute_files.isEmpty then { hourly := Option.none, deleted := [], records := [] }
  else
    let all_records := (rollupLines minute_files).foldl rollupLine []
    if ¬all_records.isEmpty then
      if putOk then
        { hourly := some ((sortLe rkeySortLE (all_records.map Prod.fst)).filterMap
            (fun k => dictFind all_records k))
          deleted := minute_files.map Prod.fst
          records := all_records }
      else { hourly := Option.none, deleted := [], records := all_records }
    else { hourly := Option.none, deleted := minute_files.map Prod.fst, records := [] }

/-- `rollup_and_cleanup_s3_files` (lines 1959-2064).  The global
`last_hourly_rollup_hour` is threaded as `Option ℤ`, `Option.none`
standing for the undefined name: no line of this file ever initializes
it, so the guard read `current_hour == last_hourly_rollup_hour` at line
1971 raises `NameError`, which the handler at line 2063 catches — the
function then returns having done nothing, and the global is still
undefined.  The `some` branches model the (unreachable) initialized
states: an equal hour short-circuits at line 1972, a new hour runs
`rollupTransition`; a raised `put_object` skips the assignment at line
2061, otherwise the assignments at lines 1989/1997/2061 store the
current hour. -/
def rollup_and_cleanup_s3_files (s3_enabled : Bool)
    (last_hourly_rollup_hour : Option ℤ) (current_hour : ℤ)
    (hourly_filename : String)
    (listed : List (String × Except Unit (List RollupLine))) (putOk : Bool) :
    RollupResult × Option ℤ :=
  if ¬s3_enabled then
    ({ hourly := Option.none, deleted := [], records := [] },
     last_hourly_rollup_hour)
  else
    match last_hourly_rollup_hour with
    | Option.none =>
      ({ hourly := Option.none, deleted := [], records := [] }, Option.none)
    | some h =>
      if current_hour = h then
        ({ hourly := Option.none, deleted := [], records := [] }, some h)
      else
        let res := rollupTransition hourly_filename listed putOk
        (res, if ¬res.records.isEmpty ∧ putOk = false then some h
          else some current_hour)

/-! ## Position-alignment predicates (claim C4) -/

/-- A snapshot supplies latitude and longitude "together": both numeric,
both effectively absent (`None`/missing key), or both the `'N/A'`
marker. -/
def alignedPos (snap : Snapshot α) : Prop :=
  ((pyGet snap.lat).isNum = true ∧ (pyGet snap.lon).isNum = true) ∨
  (pyGet snap.lat = PV.none ∧ pyGet snap.lon = PV.none) ∨
  (pyGet snap.lat = PV.na ∧ pyGet snap.lon = PV.na)

/-- The stored position fields are both present (numeric) or both absent
(`None` or the `'N/A'` marker). -/
def posFieldsOk (e : Entry α) : Prop :=
  (e.lat.isNum = true ∧ e.lon.isNum = true) ∨
  ((e.lat = PV.none ∨ e.lat = PV.na) ∧ (e.lon = PV.none ∨ e.lon = PV.na))

/-- Every tracked entry satisfies `posFieldsOk`. -/
def tableAligned (st : TrackState α) : Prop :=
  ∀ p ∈ st.table, posFieldsOk p.2

/-! ## Concrete fixtures used by witnesses and counterexamples -/

/-- An aircraft dict at zero altitude, as stored in a reception record. -/
def testARec : ARec ℚ := { alt_baro := PV.num 0 }

/-- A stored reception record with slant range 5 at key (0, 0). -/
def testSector : SectorRecord ℚ :=
  { aircraft := testARec, slant_distance := 5, positional_distance := PV.na,
    bearing := 0, altitude_zone := 0, timestamp := 0 }

/-- A minimal tracked entry (inserted at time 0 with no data). -/
def testEntry : Entry ℚ :=
  { first_seen := 0, last_seen := 0, hex := "abc123", flight := "N/A",
    registration := PV.none, type := PV.none, squawk := PV.none,
    alt_baro := PV.none, gs := PV.none, baro_rate := PV.none, track := PV.none,
    messages := PV.num 0, seen := PV.none, rssi := PV.none,
    lat := PV.none, lon := PV.none, r_dst := PV.none, dbFlags := PV.num 0,
    position_timestamp := 0, data_quality := PV.none }

/-- An environment with no identity sources and S3 enabled. -/
def testEnv : Env ℚ :=
  { s3_enabled := true
    history := fun _ => Option.none
    s3db := fun _ => Option.none
    icaoCacheRaw := fun _ => Option.none
    staticDb := fun _ => (Option.none, Option.none) }

/-- The same environment with S3 disabled. -/
def testEnvNoS3 : Env ℚ := { testEnv with s3_enabled := false }

/-- A snapshot whose live data already supplies registration and type. -/
def testSnapRT : Snapshot ℚ :=
  { hex := "abc123", r := some (PV.str "N123AB"), t := some (PV.str "B738") }

/-- A snapshot carrying only a hex id. -/
def testSnapHexOnly : Snapshot ℚ := { hex := "abc123" }

/-- The minimal entry with a valid stored position. -/
def testEntryPos : Entry ℚ := {testEntry with lat := PV.num 40, lon := PV.num (-74)}

/-- An entry with a known registration and positional distance. -/
def testEntryFull : Entry ℚ :=
  {testEntry with registration := PV.str "N123AB", r_dst := PV.num 50}

/-- A snapshot whose registration key is present but `null`. -/
def testSnapNullReg : Snapshot ℚ := { hex := "abc123", r := some PV.none }

/-- A snapshot supplying a latitude but no longitude. -/
def testSnapLatOnly : Snapshot ℚ := { hex := "abc123", lat := some (PV.num 40) }

/-- A tracking state holding only one buffered record. -/
def testStateBuf : TrackState ℚ := { buffer := [testEntry] }

/-- A tracking state with one tracked aircraft holding a full position. -/
def testStateAligned : TrackState ℚ := { table := [("abc123", testEntryPos)] }

/-! ## The C3 scenario (concrete real-geometry inputs) -/

/-- The C3 scenario snapshot `{hex: "abc123", lat: 40.0, lon: -74.0,
alt_baro: 35000}`. -/
def testSnapC3 : Snapshot ℝ :=
  { hex := "abc123", lat := some (PV.num 40), lon := some (PV.num (-74)),
    alt_baro := some (PV.num 35000) }

/-- An environment over ℝ with no identity sources (first-time arrival,
nothing cached). -/
def testEnvR : Env ℝ :=
  { s3_enabled := false
    history := fun _ => Option.none
    s3db := fun _ => Option.none
    icaoCacheRaw := fun _ => Option.none
    staticDb := fun _ => (Option.none, Option.none) }

/-- The positional distance of the C3 scenario: receiver (40.1, -74.1),
aircraft (40.0, -74.0). -/
noncomputable def distC3 : ℝ := calculate_distance 40.1 (-74.1) 40 (-74)

/-- The entry inserted by the C3 scenario (new-aircraft branch at time 0). -/
noncomputable def entryC3 : Entry ℝ :=
  { first_seen := 0, last_seen := 0, hex := "abc123", flight := "N/A",
    registration := PV.none, type := PV.none, squawk := PV.none,
    alt_baro := PV.num 35000, gs := PV.none, baro_rate := PV.none,
    track := PV.none, messages := PV.num 0, seen := PV.none, rssi := PV.none,
    lat := PV.num 40, lon := PV.num (-74),
    r_dst := PV.num (pyRound2 distC3), dbFlags := PV.num 0,
    position_timestamp := 0, data_quality := PV.none }

/-- A stored real-valued reception record with slant range 0 at key (0, 7). -/
def testSectorR : SectorRecord ℝ :=
  { aircraft := {}, slant_distance := 0, positional_distance := PV.none,
    bearing := 0, altitude_zone := 7, timestamp := 0 }

/-- A real-valued reception-record map holding only `testSectorR`. -/
def testRecsR : RecMap ℝ := [((0, 7), testSectorR)]

/-! ## The reception-record file at string level
(`write_reception_records` / `load_reception_records`).

Strings are processed as character lists.  Numeric values are exact
rationals: `ratRender` models Python `str(float)` for finite-decimal
values (every double is one; values so large that `str` would switch to
scientific notation are outside the well-formedness assumptions of the
theorems), and `fmtFixed` models the `%.1f` / `%.2f` fixed-point
formatting with the same exact-value round-half-even convention used by
`pyRound2`.  Timestamp rendering (`strftime`) and parsing (`strptime`)
are abstracted as function parameters: the claims do not mention
timestamps, and the loader routes the raw field-0 string through them. -/

/-- Decimal digit character for `d < 10`. -/
def digitChar (d : ℕ) : Char := Char.ofNat (48 + d)

/-- Numeric value of a decimal digit character. -/
def charVal (c : Char) : ℕ := c.toNat - 48

/-- The regex class `\d` (ASCII digits). -/
def isDigitB (c : Char) : Bool := decide (48 ≤ c.toNat) && decide (c.toNat ≤ 57)

/-- The regex class `[\d.]`. -/
def isDigitDot (c : Char) : Bool := isDigitB c || c == '.'

/-- The regex class `\w` (ASCII range). -/
def isWordB (c : Char) : Bool :=
  isDigitB c || (decide ('a' ≤ c) && decide (c ≤ 'z')) ||
    (decide ('A' ≤ c) && decide (c ≤ 'Z')) || c == '_'

/-- Little-endian decimal digits of `n` (fuel-based so that it reduces
inside the kernel). -/
def natRenderAux : ℕ → ℕ → List Char
  | 0, _ => []
  | _ + 1, 0 => []
  | fuel + 1, n => digitChar (n % 10) :: natRenderAux fuel (n / 10)

/-- Decimal rendering of a natural number (Python `str(n)`). -/
def natRender (n : ℕ) : List Char :=
  if n = 0 then ['0'] else (natRenderAux n n).reverse

/-- Decimal rendering of an integer (Python `str(i)`). -/
def intRender (i : ℤ) : List Char :=
  if i < 0 then '-' :: natRender i.natAbs else natRender i.natAbs

/-- Value of a digit string (`int(s)` on a `\d+` capture). -/
def parseNat (l : List Char) : ℕ := Nat.ofDigits 10 ((l.map charVal).reverse)

/-- `str.split(sep)` on character lists. -/
def splitOnChar (sep : Char) : List Char → List (List Char)
  | [] => [[]]
  | c :: rest =>
    match splitOnChar sep rest with
    | [] => [[]]
    | h :: t => if c = sep then [] :: h :: t else (c :: h) :: t

/-- `sep.join(fields)` on character lists. -/
def joinSep (sep : Char) : List (List Char) → List Char
  | [] => []
  | [x] => x
  | x :: y :: ys => x ++ sep :: joinSep sep (y :: ys)

/-- `re.search(lit + '(P+)', s)` for a character class `P`: scan for the
leftmost position where the literal occurs followed by at least one
`P`-character, and capture the maximal `P`-run. -/
def findSub (lit : List Char) (pred : Char → Bool) : List Char → Option (List Char)
  | [] => Option.none
  | c :: rest =>
    if lit.isPrefixOf (c :: rest) then
      let cap := ((c :: rest).drop lit.length).takeWhile pred
      if cap.isEmpty then findSub lit pred rest else some cap
    else findSub lit pred rest

/-- `float(s)` on a `[\d.]+` capture: at most one dot, at least one
digit; `Option.none` is the `ValueError` raised otherwise. -/
def parseDec (l : List Char) : Option ℚ :=
  match splitOnChar '.' l with
  | [d] => if !d.isEmpty && d.all isDigitB then some ((parseNat d : ℚ))
      else Option.none
  | [d, f] => if (!d.isEmpty || !f.isEmpty) && d.all isDigitB && f.all isDigitB
      then some ((parseNat d : ℚ) + (parseNat f : ℚ) / 10 ^ f.length)
      else Option.none
  | _ => Option.none

/-- Pad a digit string with leading zeros to at least `len` characters. -/
def natPad (l : List Char) (len : ℕ) : List Char :=
  List.replicate (len - l.length) '0' ++ l

/-- The smallest decimal exponent `k` (searched up to the double-precision
maximum) with `q * 10^k` integral. -/
def decExpAux (q : ℚ) : Option ℕ :=
  (List.range 1100).findSome?
    (fun k => if (q * 10 ^ k).den = 1 then some k else Option.none)

/-- Python `str(float)` for finite-decimal values: minimal digits, at
least one fractional digit. -/
def ratRender (q : ℚ) : List Char :=
  match decExpAux |q| with
  | some k =>
    let e := max k 1
    let ds := natPad (natRender (|q| * 10 ^ e).num.toNat) (e + 1)
    (if q < 0 then ['-'] else []) ++ ds.take (ds.length - e) ++
      '.' :: ds.drop (ds.length - e)
  | Option.none => ['?']

/-- Python `str()` of a stored dictionary value. -/
def pvStr (v : PV ℚ) : List Char :=
  match v with
  | PV.num q => ratRender q
  | PV.str s => s.data
  | PV.none => "None".data
  | PV.na => "N/A".data

/-- `f"{x:.dpf}"` fixed-point formatting of an exact value. -/
def fmtFixed (dp : ℕ) (q : ℚ) : List Char :=
  let n := roundHalfEven (q * 10 ^ dp)
  let ds := natPad (natRender n.natAbs) (dp + 1)
  (if n < 0 then ['-'] else []) ++ ds.take (ds.length - dp) ++
    (if dp = 0 then [] else '.' :: ds.drop (ds.length - dp))

/-- `sorted` order on `(sector, altitude_zone)` keys (Python tuple order). -/
def keyLeB (a b : ℤ × ℤ) : Bool :=
  decide (a.1 < b.1) || (decide (a.1 = b.1) && decide (a.2 ≤ b.2))

/-- The header line written at line 927. -/
def receptionHeader : String :=
  "Timestamp\tSector\tAlt Zone\tBearing\tSlant\tPos\tAlt\tHex\tFlight\tReg\tType"

/-- The eleven tab-joined fields of one record line (lines 938-958). -/
def recordFields (tsF : ℚ → String) (k : ℤ × ℤ) (r : SectorRecord ℚ) :
    List (List Char) :=
  [(tsF r.timestamp).data,
   "Sector ".data ++ (intRender k.1 ++ (" (".data ++ (intRender (k.1 * 30) ++
     ('-' :: (intRender ((k.1 + 1) * 30 - 1) ++ "°)".data))))),
   "Alt Zone ".data ++ (intRender k.2 ++ (" (".data ++
     (intRender (k.2 * 5000) ++
       ('-' :: (intRender ((k.2 + 1) * 5000 - 1) ++ " ft)".data))))),
   "Bearing: ".data ++ (fmtFixed 1 r.bearing ++ "°".data),
   "Slant: ".data ++ (fmtFixed 2 r.slant_distance ++ " nm".data),
   "Pos: ".data ++ (pvStr r.positional_distance ++ " nm".data),
   "Alt: ".data ++ (pvStr r.aircraft.alt_baro ++ " ft".data),
   "Hex: ".data ++ r.aircraft.hex.data,
   "Flight: ".data ++ pvStr r.aircraft.flight,
   "Reg: ".data ++ pvStr r.aircraft.registration,
   "Type: ".data ++ pvStr r.aircraft.type]

/-- `write_reception_records` (lines 919-967): the header plus one line
per key, keys sorted. -/
def write_reception_records (tsF : ℚ → String) (records : RecMap ℚ) :
    List String :=
  receptionHeader ::
    (sortLe keyLeB (records.map Prod.fst)).map (fun k =>
      match dictFind records k with
      | some r => String.mk (joinSep '\t' (recordFields tsF k r))
      | Option.none => "")

/-- Parsing of one line (lines 833-909): `Except.ok Option.none` is
`continue` (blank line, too few fields, or a missing required match),
`Except.error` is a `ValueError` from `float()` (the outer handler at
line 913 then aborts the whole load). -/
def parseLine (tsP : String → ℚ) (line : String) :
    Except Unit (Option ((ℤ × ℤ) × SectorRecord ℚ)) :=
  let l := (pyStrip line).data
  if l.isEmpty then Except.ok Option.none
  else
    match splitOnChar '\t' l with
    | p0 :: p1 :: p2 :: p3 :: p4 :: p5 :: p6 :: p7 :: p8 :: p9 :: p10 :: _ =>
      match findSub "Sector ".data isDigitB p1,
            findSub "Alt Zone ".data isDigitB p2,
            findSub "Bearing: ".data isDigitDot p3,
            findSub "Slant: ".data isDigitDot p4 with
      | some sd, some zd, some bd, some sld =>
        match parseDec bd, parseDec sld with
        | some bearing, some slant =>
          let posE : Except Unit ℚ :=
            match findSub "Pos: ".data isDigitDot p5 with
            | some pd => match parseDec pd with
              | some p => Except.ok p
              | Option.none => Except.error ()
            | Option.none => Except.ok 0
          let altE : Except Unit ℚ :=
            match findSub "Alt: ".data isDigitDot p6 with
            | some ad => match parseDec ad with
              | some a => Except.ok a
              | Option.none => Except.error ()
            | Option.none => Except.ok 0
          match posE, altE with
          | Except.ok pos, Except.ok alt =>
            let hexV := match findSub "Hex: ".data isWordB p7 with
              | some h => String.mk h
              | Option.none => "N/A"
            let flightV :=
              match findSub "Flight: ".data (fun _ => true) p8 with
              | some f => pyStrip (String.mk f)
              | Option.none => "N/A"
            let regV :=
              match findSub "Reg: ".data (fun _ => true) p9 with
              | some f => pyStrip (String.mk f)
              | Option.none => "N/A"
            let typeV :=
              match findSub "Type: ".data (fun _ => true) p10 with
              | some f => pyStrip (String.mk f)
              | Option.none => "N/A"
            Except.ok (some
              ((Int.ofNat (parseNat sd), Int.ofNat (parseNat zd)),
               { aircraft :=
                   { hex := hexV, flight := PV.str flightV,
                     registration := PV.str regV, type := PV.str typeV,
                     alt_baro := PV.num alt, r_dst := PV.num pos },
                 slant_distance := slant, positional_distance := PV.num pos,
                 bearing := bearing, altitude_zone := Int.ofNat (parseNat zd),
                 timestamp := tsP (String.mk p0) }))
          | _, _ => Except.error ()
        | _, _ => Except.error ()
      | _, _, _, _ => Except.ok Option.none
    | _ => Except.ok Option.none

/-- The load loop over the post-header lines: a `float()` error aborts,
keeping what was loaded so far. -/
def loadLoop (tsP : String → ℚ) : List String → RecMap ℚ → RecMap ℚ
  | [], acc => acc
  | l :: rest, acc =>
    match parseLine tsP l with
    | Except.error _ => acc
    | Except.ok Option.none => loadLoop tsP rest acc
    | Except.ok (some (k, r)) => loadLoop tsP rest (dictInsert acc k r)

/-- `load_reception_records` (lines 795-916) applied to the file lines:
skip the header, fold the rest into a fresh map. -/
def load_reception_records (tsP : String → ℚ) (lines : List String) :
    RecMap ℚ :=
  loadLoop tsP lines.tail []

/-- `round(q, dp)` at an arbitrary number of decimals: the value a
`%.dpf`-formatted field parses back to. -/
def roundTo (dp : ℕ) (q : ℚ) : ℚ := (roundHalfEven (q * 10 ^ dp) : ℚ) / 10 ^ dp

/-- A nonnegative finite-decimal value (every nonnegative double whose
`str` form is plain decimal). -/
def finiteDec (q : ℚ) : Prop := 0 ≤ q ∧ (decExpAux q).isSome = true

/-- No tab character. -/
def noTab (l : List Char) : Prop := ∀ c ∈ l, c ≠ '\t'

/-- Well-formedness of one stored record for the round trip: nonnegative
key, nonnegative bearing and slant, numeric finite-decimal positional
distance and altitude, tab-free string fields. -/
def recWritable (k : ℤ × ℤ) (r : SectorRecord ℚ) : Prop :=
  0 ≤ k.1 ∧ 0 ≤ k.2 ∧ 0 ≤ r.bearing ∧ 0 ≤ r.slant_distance ∧
  (∃ p, r.positional_distance = PV.num p ∧ finiteDec p) ∧
  (∃ a, r.aircraft.alt_baro = PV.num a ∧ finiteDec a) ∧
  noTab (pvStr r.aircraft.flight) ∧ noTab r.aircraft.hex.data ∧
  noTab (pvStr r.aircraft.registration) ∧ noTab (pvStr r.aircraft.type)

/-- The timestamp renderer produces tab-free text starting with a
non-whitespace character (as `strftime('%Y-%m-%d %H:%M:%S UTC')` does). -/
def tsRenderOk (tsF : ℚ → String) : Prop :=
  ∀ t, noTab (tsF t).data ∧
    ∃ c rest, (tsF t).data = c :: rest ∧ c.isWhitespace = false

/-- A rational-valued reception record whose bearing carries two decimals
(45.67°). -/
def testSectorC7 : SectorRecord ℚ :=
  { aircraft :=
      { hex := "abc123", flight := PV.str "UAL1",
        registration := PV.str "N123AB", type := PV.str "B738",
        alt_baro := PV.num 35000, r_dst := PV.num 12 },
    slant_distance := 10, positional_distance := PV.num 12,
    bearing := 4567 / 100, altitude_zone := 7, timestamp := 0 }

/-- A map holding only `testSectorC7` at key (0, 7). -/
def testRecsC7 : RecMap ℚ := [((0, 7), testSectorC7)]

/-- The same record with integral bearing and slant (witness input). -/
def testSectorW : SectorRecord ℚ :=
  { testSectorC7 with bearing := 45, slant_distance := 10 }

/-- A map holding only `testSectorW` at key (0, 7). -/
def testRecsW : RecMap ℚ := [((0, 7), testSectorW)]

/-- A fixed timestamp renderer. -/
def testTsF : ℚ → String := fun _ => "2025-01-01 00:00:00 UTC"

/-- A fixed timestamp parser. -/
def testTsP : String → ℚ := fun _ => 0

/-- The right-strip half of `pyStrip`. -/
def rstrip (l : List Char) : List Char :=
  (l.reverse.dropWhile Char.isWhitespace).reverse

/-! ## Association-list dictionary lemmas (shared helpers) -/

theorem dictFind_nil {κ ν : Type} [DecidableEq κ] (k : κ) :
    dictFind ([] : List (κ × ν)) k = Option.none := by
  simp [dictFind]

theorem dictFind_cons {κ ν : Type} [DecidableEq κ] (p : κ × ν) (m : List (κ × ν)) (k : κ) :
    dictFind (p :: m) k = if p.1 = k then some p.2 else dictFind m k := by
  by_cases hp : p.1 = k <;> simp [dictFind, List.find?_cons, hp]

theorem dictFind_append {κ ν : Type} [DecidableEq κ] (m l : List (κ × ν)) (k : κ) :
    dictFind (m ++ l) k = ((dictFind m k).map some).getD (dictFind l k) := by
  induction m with
  | nil => simp [dictFind_nil]
  | cons p rest ih =>
    by_cases hp : p.1 = k <;> simp [dictFind_cons, hp, ih]

theorem dictFind_mapReplace_self {κ ν : Type} [DecidableEq κ] (m : List (κ × ν)) (k : κ) (v : ν) :
    dictFind (m.map (fun p => if p.1 = k then (k, v) else p)) k =
      if (dictFind m k).isSome then some v else Option.none := by
  induction m with
  | nil => simp [dictFind_nil]
  | cons p rest ih =>
    by_cases hp : p.1 = k
    · simp [hp, dictFind_cons]
    · simp [hp, dictFind_cons, ih]

theorem dictFind_mapReplace_ne {κ ν : Type} [DecidableEq κ] (m : List (κ × ν)) (k k' : κ) (v : ν)
    (hne : k' ≠ k) :
    dictFind (m.map (fun p => if p.1 = k then (k, v) else p)) k' = dictFind m k' := by
  induction m with
  | nil => simp
  | cons p rest ih =>
    by_cases hp : p.1 = k
    · have hk : k ≠ k' := fun h => hne h.symm
      have hp' : p.1 ≠ k' := hp ▸ hk
      simp [hp, dictFind_cons, hk, hp', ih]
    · by_cases hp' : p.1 = k' <;> simp [hp, hp', hne, dictFind_cons, ih]

theorem dictFind_insert_self {κ ν : Type} [DecidableEq κ] (m : List (κ × ν)) (k : κ) (v : ν) :
    dictFind (dictInsert m k v) k = some v := by
  unfold dictInsert
  by_cases h : (dictFind m k).isSome
  · simp [h, dictFind_mapReplace_self]
  · rw [if_neg h, dictFind_append]
    rw [Option.not_isSome_iff_eq_none] at h
    simp [h, dictFind_cons]

theorem dictFind_insert_ne {κ ν : Type} [DecidableEq κ] (m : List (κ × ν)) (k k' : κ) (v : ν)
    (hne : k' ≠ k) : dictFind (dictInsert m k v) k' = dictFind m k' := by
  unfold dictInsert
  by_cases h : (dictFind m k).isSome
  · simp [h, dictFind_mapReplace_ne m k k' v hne]
  · rw [if_neg h, dictFind_append]
    have hkk : k ≠ k' := fun h' => hne h'.symm
    cases hfind : dictFind m k' with
    | none => simp [dictFind_cons, hkk, dictFind_nil]
    | some w => simp

/-- Keys of a dict after insertion: unchanged, or the new key appended. -/
theorem dictInsert_keys {κ ν : Type} [DecidableEq κ] (m : List (κ × ν)) (k : κ) (v : ν) :
    (dictInsert m k v).map Prod.fst = m.map Prod.fst ∨
      (dictInsert m k v).map Prod.fst = m.map Prod.fst ++ [k] := by
  unfold dictInsert
  by_cases h : (dictFind m k).isSome
  · left
    simp only [h, if_true, List.map_map]
    apply List.map_congr_left
    intro p _
    by_cases hp : p.1 = k
    · simp [Function.comp, hp]
    · simp [Function.comp, hp]
  · right
    simp [h]

theorem dictFind_isSome_of_mem_keys {κ ν : Type} [DecidableEq κ] (m : List (κ × ν)) (k : κ)
    (h : k ∈ m.map Prod.fst) : (dictFind m k).isSome := by
  induction m with
  | nil => simp at h
  | cons p rest ih =>
    by_cases hp : p.1 = k
    · simp [dictFind_cons, hp]
    · rw [List.map_cons, List.mem_cons] at h
      rcases h with h | h
      · exact absurd h.symm hp
      · simpa [dictFind_cons, hp] using ih h

/-- `dictInsert` preserves key-uniqueness. -/
theorem dictInsert_nodupKeys {κ ν : Type} [DecidableEq κ] (m : List (κ × ν)) (k : κ) (v : ν)
    (h : (m.map Prod.fst).Nodup) : ((dictInsert m k v).map Prod.fst).Nodup := by
  unfold dictInsert
  by_cases hs : (dictFind m k).isSome
  · have hkeys : ((m.map (fun p => if p.1 = k then (k, v) else p)).map Prod.fst) =
        m.map Prod.fst := by
      simp only [List.map_map]
      apply List.map_congr_left
      intro p _
      by_cases hp : p.1 = k
      · simp [Function.comp, hp]
      · simp [Function.comp, hp]
    simpa [hs, hkeys]
  · have hk : k ∉ m.map Prod.fst := fun hmem => hs (dictFind_isSome_of_mem_keys m k hmem)
    rw [if_neg hs]
    simp only [List.map_append, List.map_cons, List.map_nil]
    refine List.Nodup.append h (List.nodup_singleton k) ?_
    intro a ha hb
    simp only [List.mem_singleton] at hb
    subst hb
    exact hk ha

/-! ## Claim theorems -/

/-- C6: for every fixed (sector, altitude-zone) key, the stored reception
record's slant range is monotonically non-decreasing across calls to
`update_sector_altitude_records`: a strictly greater slant distance
replaces the record, an equal or smaller one leaves the stored map
entirely unchanged. -/
theorem C6_sector_records_monotonic {α : Type} [LinearOrderedField α] [FloorRing α]
    (now : α) (records : RecMap α) (info : ARec α) (slant bearing : α)
    (stored : SectorRecord α)
    (hs : dictFind records (get_sector bearing, get_altitude_zone (recordAltitude info)) =
      some stored) :
    (∀ r', dictFind (update_sector_altitude_records now records info slant bearing)
        (get_sector bearing, get_altitude_zone (recordAltitude info)) = some r' →
        stored.slant_distance ≤ r'.slant_distance) ∧
    (stored.slant_distance < slant →
      dictFind (update_sector_altitude_records now records info slant bearing)
        (get_sector bearing, get_altitude_zone (recordAltitude info)) =
        some { aircraft := info, slant_distance := slant,
               positional_distance := info.r_dst, bearing := bearing,
               altitude_zone := get_altitude_zone (recordAltitude info), timestamp := now }) ∧
    (slant ≤ stored.slant_distance →
      update_sector_altitude_records now records info slant bearing = records) := by
  have hupd : update_sector_altitude_records now records info slant bearing =
      if stored.slant_distance < slant then
        dictInsert records (get_sector bearing, get_altitude_zone (recordAltitude info))
          { aircraft := info, slant_distance := slant,
            positional_distance := info.r_dst, bearing := bearing,
            altitude_zone := get_altitude_zone (recordAltitude info), timestamp := now }
      else records := by
    simp only [update_sector_altitude_records]
    rw [hs]
  refine ⟨?_, ?_, ?_⟩
  · intro r' hr'
    by_cases hlt : stored.slant_distance < slant
    · rw [hupd, if_pos hlt, dictFind_insert_self] at hr'
      cases hr'
      exact le_of_lt hlt
    · rw [hupd, if_neg hlt, hs] at hr'
      cases hr'
      exact le_refl _
  · intro hlt
    rw [hupd, if_pos hlt, dictFind_insert_self]
  · intro hle
    rw [hupd, if_neg (not_lt.mpr hle)]

/-- Witness for C6 on concrete inputs: a record with slant 5 at key
(0, 0) is beaten by slant 7 and untouched by slant 5. -/
theorem C6_sector_records_monotonic_witness :
    (update_sector_altitude_records (1 : ℚ) [((0, 0), testSector)] testARec 5 0 =
      [((0, 0), testSector)]) ∧
    dictFind (update_sector_altitude_records (1 : ℚ) [((0, 0), testSector)] testARec 7 0)
      (get_sector (0 : ℚ), get_altitude_zone (recordAltitude testARec)) =
      some { aircraft := testARec, slant_distance := 7,
             positional_distance := testARec.r_dst, bearing := 0,
             altitude_zone := get_altitude_zone (recordAltitude testARec), timestamp := 1 } :=
  ⟨(C6_sector_records_monotonic 1 [((0, 0), testSector)] testARec 5 0 testSector
      (by norm_num [get_sector, get_altitude_zone, recordAltitude, testARec, dictFind,
        List.find?])).2.2 (by decide),
   (C6_sector_records_monotonic 1 [((0, 0), testSector)] testARec 7 0 testSector
      (by norm_num [get_sector, get_altitude_zone, recordAltitude, testARec, dictFind,
        List.find?])).2.1 (by decide)⟩

/-! ### Generic list helper lemmas -/

theorem insertLe_perm {β : Type} (le : β → β → Bool) (x : β) (l : List β) :
    (insertLe le x l).Perm (x :: l) := by
  induction l with
  | nil => exact List.Perm.refl _
  | cons y ys ih =>
    by_cases h : le x y
    · simp [insertLe, h]
    · simp only [insertLe, h, Bool.false_eq_true, if_false]
      exact ((ih.cons y).trans (List.Perm.swap x y ys))

theorem sortLe_perm {β : Type} (le : β → β → Bool) (l : List β) :
    (sortLe le l).Perm l := by
  induction l with
  | nil => exact List.Perm.refl _
  | cons x xs ih =>
    exact (insertLe_perm le x (sortLe le xs)).trans (ih.cons x)

theorem length_filterMap_of_isSome {β γ : Type} (f : β → Option γ) (l : List β)
    (h : ∀ a ∈ l, (f a).isSome) : (l.filterMap f).length = l.length := by
  induction l with
  | nil => rfl
  | cons a rest ih =>
    rcases Option.isSome_iff_exists.mp (h a (List.mem_cons_self a rest)) with ⟨b, hb⟩
    rw [List.filterMap_cons, hb]
    simp only [List.length_cons]
    rw [ih (fun a ha => h a (List.mem_cons_of_mem _ ha))]

/-! ### Rollup helper lemmas -/

/-- Effect of one processed line on the tuple-keyed part of the dict. -/
theorem dictFind_rollupLine_inl (recs : List (RKey × String)) (l : RollupLine)
    (k : String × String) :
    dictFind (rollupLine recs l) (Sum.inl k) =
      if lineKey l = some k then some (pyStrip (lineRaw l)) else dictFind recs (Sum.inl k) := by
  cases l with
  | bad raw =>
    simp only [rollupLine, lineKey]
    rw [dictFind_insert_ne _ _ _ _ (by simp), if_neg (by simp)]
  | json io lo raw =>
    cases io with
    | none => simp [rollupLine, lineKey]
    | some i =>
      cases lo with
      | none => simp [rollupLine, lineKey]
      | some l' =>
        simp only [rollupLine, lineKey]
        by_cases hcond : i ≠ "" ∧ l' ≠ ""
        · by_cases hk : (i, l') = k
          · subst hk
            simp [if_pos hcond, dictFind_insert_self, lineRaw]
          · simp only [if_pos hcond]
            rw [dictFind_insert_ne _ _ _ _ (fun h => hk (Sum.inl.inj h).symm),
              if_neg (by simpa using hk)]
        · simp [if_neg hcond]

/-- Last-write-wins characterisation of the rollup fold. -/
theorem dictFind_rollupFold_inl (lines : List RollupLine) (recs : List (RKey × String))
    (k : String × String) :
    dictFind (lines.foldl rollupLine recs) (Sum.inl k) =
      ((lastKeyed k lines).map some).getD (dictFind recs (Sum.inl k)) := by
  induction lines generalizing recs with
  | nil => simp [lastKeyed]
  | cons l rest ih =>
    rw [List.foldl_cons, ih]
    by_cases hl : lineKey l = some k
    · have hfilter : (l :: rest).filter (fun l => decide (lineKey l = some k)) =
          l :: rest.filter (fun l => decide (lineKey l = some k)) := by
        simp [List.filter_cons, hl]
      cases hrest : ((rest.filter (fun l => decide (lineKey l = some k))).map
          (fun l => pyStrip (lineRaw l))).getLast? with
      | none =>
        have hnil : (rest.filter (fun l => decide (lineKey l = some k))).map
            (fun l => pyStrip (lineRaw l)) = [] := List.getLast?_eq_none_iff.mp hrest
        rw [dictFind_rollupLine_inl, if_pos hl]
        simp [lastKeyed, hfilter, hrest, hnil]
      | some r =>
        rcases List.getLast?_eq_some_iff.mp hrest with ⟨pre, hpre⟩
        have hcat : pyStrip (lineRaw l) :: (pre ++ [r]) =
            (pyStrip (lineRaw l) :: pre) ++ [r] := rfl
        have hLrest : lastKeyed k rest = some r := by
          simpa [lastKeyed] using hrest
        have hLcons : lastKeyed k (l :: rest) = some r := by
          simp only [lastKeyed, hfilter, List.map_cons, hpre, hcat, List.getLast?_concat]
        rw [hLrest, hLcons]
        simp
    · have hfilter : (l :: rest).filter (fun l => decide (lineKey l = some k)) =
          rest.filter (fun l => decide (lineKey l = some k)) := by
        simp [List.filter_cons, hl]
      rw [dictFind_rollupLine_inl, if_neg hl]
      simp [lastKeyed, hfilter]

/-- Each processed line preserves key-uniqueness of the dict. -/
theorem rollupLine_nodupKeys (recs : List (RKey × String)) (l : RollupLine)
    (h : (recs.map Prod.fst).Nodup) : ((rollupLine recs l).map Prod.fst).Nodup := by
  cases l with
  | bad raw => exact dictInsert_nodupKeys _ _ _ h
  | json io lo raw =>
    cases io with
    | none => simpa [rollupLine] using h
    | some i =>
      cases lo with
      | none => simpa [rollupLine] using h
      | some l' =>
        simp only [rollupLine]
        by_cases hcond : i ≠ "" ∧ l' ≠ ""
        · rw [if_pos hcond]
          exact dictInsert_nodupKeys _ _ _ h
        · rw [if_neg hcond]
          exact h

/-- The rollup fold preserves key-uniqueness. -/
theorem rollupFold_nodupKeys (lines : List RollupLine) (recs : List (RKey × String))
    (h : (recs.map Prod.fst).Nodup) :
    ((lines.foldl rollupLine recs).map Prod.fst).Nodup := by
  induction lines generalizing recs with
  | nil => exact h
  | cons l rest ih => exact ih _ (rollupLine_nodupKeys recs l h)

/-- C2: the hourly rollup can never consolidate or delete anything.  No
line of this file ever initializes the global `last_hourly_rollup_hour`
(read at line 1971, assigned only later at lines 1989/1997/2061 of the
same function), so the guard read raises `NameError` on every call, the
handler at line 2063 swallows it, and the call returns having written no
hourly object and deleted no minute file — with the global still
undefined, so the same happens on every subsequent call, for any listed
minute objects and whether or not the put would succeed. -/
theorem C2_rollup_never_runs (s3_enabled : Bool) (current_hour : ℤ)
    (hourly_filename : String)
    (listed : List (String × Except Unit (List RollupLine))) (putOk : Bool) :
    (rollup_and_cleanup_s3_files s3_enabled Option.none current_hour
        hourly_filename listed putOk).1.hourly = Option.none ∧
    (rollup_and_cleanup_s3_files s3_enabled Option.none current_hour
        hourly_filename listed putOk).1.deleted = [] ∧
    (rollup_and_cleanup_s3_files s3_enabled Option.none current_hour
        hourly_filename listed putOk).2 = Option.none := by
  cases s3_enabled <;> simp [rollup_and_cleanup_s3_files]

/-- C1: evaluation of the per-tick minute flush at the failing input.
With one buffered record, 60 s elapsed and the S3 `put_object` raising
(the exception is caught inside `upload_minute_file_to_s3`), the main
loop still clears `pending_aircraft` and nothing was uploaded: the
buffered record is lost, contradicting the claim that the buffer is left
unchanged across a failed flush attempt. -/
theorem C1_failed_flush_loses_buffer :
    minuteFlushTick true false false (60 : ℚ) "piaware_aircraft_log_20251116_1623.json"
      [testEntry] { last_minute_upload_time := 0 } =
      ([], { last_minute_upload_time := 0, s3_upload_count := 0, uploaded := [] }) := by
  norm_num [minuteFlushTick, upload_minute_file_to_s3]

/-- C5 counterexample: a snapshot that already supplies both registration
and type, yet (with S3 enabled) the bulk type-database tier and the
per-hex cache tier are still consulted — refuting "if the live snapshot
already supplies both fields, no tier is consulted". -/
theorem C5_counterexample :
    (resolveIdentity testEnv 0 "abc123" testSnapRT).consulted_s3db = true ∧
    (resolveIdentity testEnv 0 "abc123" testSnapRT).consulted_icao = true ∧
    (pyGetD testSnapRT.r PV.na).emptyish = false ∧
    (pyGetD testSnapRT.t PV.na).emptyish = false := by
  decide

/-- C5 (amended): the bulk type database and the per-hex cache are
consulted unconditionally (whenever S3 is enabled), even when both
fields are already resolved — their values are merely not used then;
only the static prefix database is guarded, consulted exactly when
registration or type is still the literal `'N/A'` after the earlier
tiers; and live values, when both non-empty, survive unchanged. -/
theorem C5_tier_consultation {α : Type} [LinearOrderedField α] [FloorRing α]
    (env : Env α) (now : α) (hex_code : String) (snap : Snapshot α) :
    (resolveIdentity env now hex_code snap).consulted_s3db = env.s3_enabled ∧
    (resolveIdentity env now hex_code snap).consulted_icao = env.s3_enabled ∧
    ((resolveIdentity env now hex_code snap).consulted_static = true ↔
      ((identAfterIcao env now hex_code (identAfterS3db env hex_code
          (identAfterHistory env hex_code snap))).1 = PV.na ∨
        (identAfterIcao env now hex_code (identAfterS3db env hex_code
          (identAfterHistory env hex_code snap))).2 = PV.na)) ∧
    ((pyGetD snap.r PV.na).emptyish = false → (pyGetD snap.t PV.na).emptyish = false →
      (resolveIdentity env now hex_code snap).registration = pyGetD snap.r PV.na ∧
      (resolveIdentity env now hex_code snap).type = pyGetD snap.t PV.na) := by
  refine ⟨rfl, rfl, by simp [resolveIdentity], ?_⟩
  intro hr ht
  have hne : ∀ v : PV α, v.emptyish = false → v ≠ PV.na := by
    intro v hv h
    rw [h] at hv
    simp [PV.emptyish] at hv
  have h1 : identAfterHistory env hex_code snap =
      (pyGetD snap.r PV.na, pyGetD snap.t PV.na) := by
    unfold identAfterHistory
    cases env.history hex_code with
    | none => rfl
    | some hist =>
      refine Prod.ext ?_ ?_ <;> simp only
      · cases hr0 : pyGetD snap.r PV.na with
        | na => exact absurd hr0 (hne _ hr)
        | none => cases hist.r <;> rfl
        | num x => cases hist.r <;> rfl
        | str s => cases hist.r <;> rfl
      · cases ht0 : pyGetD snap.t PV.na with
        | na => exact absurd ht0 (hne _ ht)
        | none => cases hist.t <;> rfl
        | num x => cases hist.t <;> rfl
        | str s => cases hist.t <;> rfl
  have h2 : identAfterS3db env hex_code (pyGetD snap.r PV.na, pyGetD snap.t PV.na) =
      (pyGetD snap.r PV.na, pyGetD snap.t PV.na) := by
    unfold identAfterS3db
    cases get_aircraft_type_from_s3_db env hex_code with
    | none => rfl
    | some p => simp [hr, ht]
  have h3 : identAfterIcao env now hex_code (pyGetD snap.r PV.na, pyGetD snap.t PV.na) =
      (pyGetD snap.r PV.na, pyGetD snap.t PV.na) := by
    unfold identAfterIcao
    cases get_icao_cache_from_s3 env now hex_code with
    | none => rfl
    | some e => simp [hr, ht]
  have h4 : identAfterStatic env hex_code (pyGetD snap.r PV.na, pyGetD snap.t PV.na) =
      (pyGetD snap.r PV.na, pyGetD snap.t PV.na) := by
    unfold identAfterStatic
    rw [if_neg]
    push_neg
    exact ⟨hne _ hr, hne _ ht⟩
  constructor <;> simp only [resolveIdentity, h1, h2, h3, h4]

/-- Witness for C5 on concrete inputs: live registration/type pass
through the chain unchanged. -/
theorem C5_tier_consultation_witness :
    (resolveIdentity testEnv 0 "abc123" testSnapRT).registration = PV.str "N123AB" ∧
    (resolveIdentity testEnv 0 "abc123" testSnapRT).type = PV.str "B738" :=
  (C5_tier_consultation testEnv 0 "abc123" testSnapRT).2.2.2 (by decide) (by decide)

/-! ### Update-branch helper lemmas -/

/-- A successful callsign merge changes at most the `flight` field. -/
theorem flightMerge_ok_eq {α : Type} [LinearOrderedField α] [FloorRing α]
    (snap : Snapshot α) (e e1 : Entry α)
    (h : flightMerge snap e = Except.ok e1) : e1 = {e with flight := e1.flight} := by
  simp only [flightMerge] at h
  by_cases ht : (pyGet snap.flight).truthy = true
  · rw [if_pos ht] at h
    cases hfv : pyGet snap.flight with
    | str s =>
      simp only [hfv] at h
      by_cases hs : pyStrip s ≠ ""
      · rw [if_pos hs] at h
        injection h with h
        subst h
        rfl
      · rw [if_neg hs] at h
        injection h with h
        subst h
        rfl
    | none =>
      simp only [hfv] at h
      exact Except.noConfusion h
    | na =>
      simp only [hfv] at h
      exact Except.noConfusion h
    | num x =>
      simp only [hfv] at h
      exact Except.noConfusion h
  · rw [if_neg ht] at h
    by_cases hna : e.flight = "N/A"
    · rw [if_pos hna] at h
      cases hfv : pyGetD snap.flight (PV.str "") with
      | str s =>
        simp only [hfv] at h
        by_cases hs : pyStrip s ≠ ""
        · rw [if_pos hs] at h
          injection h with h
          subst h
          rfl
        · rw [if_neg hs] at h
          injection h with h
          subst h
          rfl
      | none =>
        simp only [hfv] at h
        exact Except.noConfusion h
      | na =>
        simp only [hfv] at h
        exact Except.noConfusion h
      | num x =>
        simp only [hfv] at h
        exact Except.noConfusion h
    · rw [if_neg hna] at h
      injection h with h
      subst h
      rfl

theorem mergeFields_pt {α : Type} [LinearOrderedField α] [FloorRing α]
    (G : GeoFns α) (recvLat recvLon : α) (snap : Snapshot α) (e1 : Entry α) :
    (mergeFields G recvLat recvLon snap e1).1.position_timestamp = e1.position_timestamp :=
  rfl

/-- The stored entry produced by `updateCore` is the merged entry,
possibly with position fields refreshed (valid-position branch). -/
theorem updateCore_fst_eq {α : Type} [LinearOrderedField α] [FloorRing α]
    (G : GeoFns α) (recvLat recvLon now : α) (snap : Snapshot α) (e1 : Entry α) :
    (updateCore G recvLat recvLon now snap e1).1 =
        (mergeFields G recvLat recvLon snap e1).1 ∨
      (updateCore G recvLat recvLon now snap e1).1 =
        {(mergeFields G recvLat recvLon snap e1).1 with
          lat := pyGet snap.lat, lon := pyGet snap.lon, position_timestamp := now} := by
  unfold updateCore
  by_cases hv : is_valid_position (pyGet snap.lat) (pyGet snap.lon) = true
  · right
    rw [if_pos hv]
  · left
    rw [if_neg hv, apply_ite Prod.fst]
    simp

/-- With no valid position in the snapshot, the stored entry is exactly
the merged entry. -/
theorem updateCore_fst_of_invalid {α : Type} [LinearOrderedField α] [FloorRing α]
    (G : GeoFns α) (recvLat recvLon now : α) (snap : Snapshot α) (e1 : Entry α)
    (hv : is_valid_position (pyGet snap.lat) (pyGet snap.lon) = false) :
    (updateCore G recvLat recvLon now snap e1).1 =
      (mergeFields G recvLat recvLon snap e1).1 := by
  unfold updateCore
  rw [if_neg (by simp [hv]), apply_ite Prod.fst]
  simp

/-- A callsign merge from an absent or empty-after-strip snapshot value
leaves the stored callsign unchanged. -/
theorem flightMerge_ok_flight_of_empty {α : Type} [LinearOrderedField α] [FloorRing α]
    (snap : Snapshot α) (e e1 : Entry α) (h : flightMerge snap e = Except.ok e1)
    (hs : snap.flight = Option.none ∨
      ∃ s, snap.flight = some (PV.str s) ∧ pyStrip s = "") :
    e1.flight = e.flight := by
  simp only [flightMerge] at h
  rcases hs with hs | ⟨s, hs, hstrip⟩
  · simp only [hs, pyGet, pyGetD, Option.getD, PV.truthy] at h
    rw [if_neg (by simp)] at h
    by_cases hna : e.flight = "N/A"
    · rw [if_pos hna] at h
      rw [if_neg (by simp [pyStrip])] at h
      injection h with h
      rw [← h]
    · rw [if_neg hna] at h
      injection h with h
      rw [← h]
  · simp only [hs, pyGet, pyGetD, Option.getD, PV.truthy] at h
    by_cases hse : s = ""
    · rw [if_neg (by simp [hse])] at h
      by_cases hna : e.flight = "N/A"
      · rw [if_pos hna, if_neg (by simp [hstrip])] at h
        injection h with h
        rw [← h]
      · rw [if_neg hna] at h
        injection h with h
        rw [← h]
    · rw [if_pos (by simp [hse])] at h
      rw [if_neg (by simp [hstrip])] at h
      injection h with h
      rw [← h]

/-- C9: for an update-path `ObservationRecord`, a valid current position
yields quality `GPS`; `GPS approx` occurs only when the snapshot has no
valid position and the time since the stored last-valid-position
timestamp is at most 5 s (the stale stored coordinates are then used);
otherwise the quality is `No position`. -/
theorem C9_position_quality {α : Type} [LinearOrderedField α] [FloorRing α]
    (G : GeoFns α) (recvLat recvLon now : α) (snap : Snapshot α) (e0 e' outRec : Entry α)
    (pc : Bool)
    (h : updateExisting G recvLat recvLon now snap e0 = Except.ok (e', outRec, pc)) :
    (is_valid_position (pyGet snap.lat) (pyGet snap.lon) = true →
      outRec.data_quality = PV.str "GPS") ∧
    (outRec.data_quality = PV.str "GPS approx" →
      is_valid_position (pyGet snap.lat) (pyGet snap.lon) = false ∧
      now - e0.position_timestamp ≤ 5 ∧
      outRec.lat = e'.lat ∧ outRec.lon = e'.lon) ∧
    (is_valid_position (pyGet snap.lat) (pyGet snap.lon) = false →
      outRec.data_quality = PV.str "GPS approx" ∨
        outRec.data_quality = PV.str "No position") ∧
    (is_valid_position (pyGet snap.lat) (pyGet snap.lon) = false →
      (outRec.data_quality = PV.str "GPS approx" ↔
        (now - e0.position_timestamp ≤ 5 ∧ is_valid_position e'.lat e'.lon = true))) := by
  unfold updateExisting at h
  cases hfm : flightMerge snap {e0 with last_seen := now} with
  | error e =>
    rw [hfm] at h
    exact Except.noConfusion h
  | ok e1 =>
    rw [hfm] at h
    injection h with h
    have hpt : e1.position_timestamp = e0.position_timestamp := by
      rw [flightMerge_ok_eq snap _ e1 hfm]
    unfold updateCore at h
    set m := mergeFields G recvLat recvLon snap e1 with hm
    have hmpt : m.1.position_timestamp = e0.position_timestamp := by
      rw [hm, mergeFields_pt]
      exact hpt
    by_cases hv : is_valid_position (pyGet snap.lat) (pyGet snap.lon) = true
    · rw [if_pos hv] at h
      have hout : outRec = {{m.1 with squawk_changed := m.2.1} with
          lat := pyGet snap.lat, lon := pyGet snap.lon,
          data_quality := PV.str "GPS"} := (congrArg (fun p => p.2.1) h).symm
      refine ⟨fun _ => by rw [hout], ?_, ?_, ?_⟩
      · intro habs
        rw [hout] at habs
        exact absurd habs (by simp)
      · intro hnv
        rw [hv] at hnv
        exact absurd hnv (by simp)
      · intro hnv
        rw [hv] at hnv
        exact absurd hnv (by simp)
    · rw [if_neg hv] at h
      have hv' : is_valid_position (pyGet snap.lat) (pyGet snap.lon) = false :=
        Bool.not_eq_true _ ▸ (by simpa using hv)
      by_cases happ : now - m.1.position_timestamp ≤ 5 ∧
          is_valid_position m.1.lat m.1.lon = true
      · rw [if_pos happ] at h
        have he' : e' = m.1 := (congrArg Prod.fst h).symm
        have hout : outRec = {{m.1 with squawk_changed := m.2.1} with
            lat := m.1.lat, lon := m.1.lon,
            data_quality := PV.str "GPS approx"} := (congrArg (fun p => p.2.1) h).symm
        refine ⟨?_, ?_, ?_, ?_⟩
        · intro habs
          rw [habs] at hv'
          exact absurd hv' (by simp)
        · exact fun _ => ⟨hv', hmpt ▸ happ.1, by rw [hout, he'], by rw [hout, he']⟩
        · exact fun _ => Or.inl (by rw [hout])
        · refine fun _ => ⟨fun _ => ?_, fun _ => by rw [hout]⟩
          exact ⟨hmpt ▸ happ.1, by rw [he']; exact happ.2⟩
      · rw [if_neg happ] at h
        have he' : e' = m.1 := (congrArg Prod.fst h).symm
        have hout : outRec = {{m.1 with squawk_changed := m.2.1} with
            data_quality := PV.str "No position"} := (congrArg (fun p => p.2.1) h).symm
        refine ⟨?_, ?_, ?_, ?_⟩
        · intro habs
          rw [habs] at hv'
          exact absurd hv' (by simp)
        · intro habs
          rw [hout] at habs
          exact absurd habs (by simp)
        · exact fun _ => Or.inr (by rw [hout])
        · refine fun _ => ⟨fun habs => ?_, fun hc => ?_⟩
          · rw [hout] at habs
            exact absurd habs (by simp)
          · exact absurd ⟨hmpt.symm ▸ hc.1, he' ▸ hc.2⟩ happ

/-- Witness for C9 on concrete inputs: an update with a valid position
yields `GPS`; one with no position 3 s after the stored position
timestamp, with valid stored coordinates, yields `GPS approx`. -/
theorem C9_position_quality_witness :
    (updateExisting zeroGeo 0 0 3 testSnapHexOnly testEntryPos).map
      (fun r => r.2.1.data_quality) = Except.ok (PV.str "GPS approx") := by
  have h : updateExisting zeroGeo 0 0 3 testSnapHexOnly testEntryPos =
      Except.ok (updateCore zeroGeo 0 0 3 testSnapHexOnly
        {testEntryPos with last_seen := 3}) := rfl
  rcases hc : updateCore zeroGeo 0 0 3 testSnapHexOnly {testEntryPos with last_seen := 3}
    with ⟨e', outRec, pc⟩
  have hq := (C9_position_quality zeroGeo 0 0 3 testSnapHexOnly testEntryPos e' outRec pc
    (by rw [h, hc])).2.2.2
  have hval : is_valid_position (pyGet testSnapHexOnly.lat) (pyGet testSnapHexOnly.lon)
      = false := by decide
  have he' : e' = (updateCore zeroGeo 0 0 3 testSnapHexOnly
      {testEntryPos with last_seen := 3}).1 := by rw [hc]
  have hfst : (updateCore zeroGeo 0 0 3 testSnapHexOnly
      {testEntryPos with last_seen := 3}).1 =
      (mergeFields zeroGeo 0 0 testSnapHexOnly {testEntryPos with last_seen := 3}).1 := by
    unfold updateCore
    rw [if_neg (by decide :
      ¬is_valid_position (pyGet testSnapHexOnly.lat) (pyGet testSnapHexOnly.lon) = true)]
    rw [apply_ite Prod.fst]
    simp
  have hlat : e'.lat = PV.num 40 := by
    rw [he', hfst]
    decide
  have hlon : e'.lon = PV.num (-74) := by
    rw [he', hfst]
    decide
  have hcond : (3 : ℚ) - testEntryPos.position_timestamp ≤ 5 ∧
      is_valid_position e'.lat e'.lon = true := by
    constructor
    · norm_num [testEntryPos, testEntry]
    · rw [hlat, hlon]
      decide
  rw [h, hc]
  simp only [Except.map]
  rw [(hq hval).mpr hcond]

/-- C8 counterexample: updating a tracked aircraft whose registration is
known (`N123AB`) and whose stored distance is 50 NM with a snapshot
carrying an explicitly-`null` registration key and no position resets
the stored registration to `None` and the stored distance to `'N/A'` —
refuting "every empty/missing snapshot field leaves the previously
stored value unchanged". -/
theorem C8_counterexample :
    (updateExisting zeroGeo 0 0 1 testSnapNullReg testEntryFull).map
        (fun r => (r.1.registration, r.1.r_dst)) =
      Except.ok ((PV.none : PV ℚ), (PV.na : PV ℚ)) ∧
    testEntryFull.registration = PV.str "N123AB" ∧ testEntryFull.r_dst = PV.num 50 := by
  refine ⟨?_, by decide, by decide⟩
  have h : updateExisting zeroGeo 0 0 1 testSnapNullReg testEntryFull =
      Except.ok (updateCore zeroGeo 0 0 1 testSnapNullReg
        {testEntryFull with last_seen := 1}) := rfl
  rw [h]
  simp only [Except.map]
  rw [updateCore_fst_of_invalid zeroGeo 0 0 1 testSnapNullReg
    {testEntryFull with last_seen := 1} (by decide)]
  refine congrArg Except.ok ?_
  decide

/-- C8 (amended): on an update, a snapshot field whose key is missing
leaves the stored value unchanged for registration, type, squawk,
altitude, speed, vertical rate, track, messages, seen, RSSI and dbFlags,
and a present key overwrites the stored value even when it is null; the
callsign alone is guarded — an absent or empty value never regresses it;
a missing latitude key keeps the stored latitude (a stored `None`
becomes the `'N/A'` marker); and the stored positional distance is reset
to `'N/A'` whenever the snapshot supplies neither a distance nor a valid
position. -/
theorem C8_field_merge {α : Type} [LinearOrderedField α] [FloorRing α]
    (G : GeoFns α) (recvLat recvLon now : α) (snap : Snapshot α)
    (e0 e' out : Entry α) (pc : Bool)
    (h : updateExisting G recvLat recvLon now snap e0 = Except.ok (e', out, pc)) :
    (e'.registration = pyGetD snap.r e0.registration) ∧
    (e'.type = pyGetD snap.t e0.type) ∧
    (e'.squawk = pyGetD snap.squawk e0.squawk) ∧
    (e'.alt_baro = pyGetD snap.alt_baro e0.alt_baro) ∧
    (e'.gs = pyGetD snap.gs e0.gs) ∧
    (e'.baro_rate = pyGetD snap.baro_rate e0.baro_rate) ∧
    (e'.track = pyGetD snap.track e0.track) ∧
    (e'.messages = pyGetD snap.messages e0.messages) ∧
    (e'.seen = pyGetD snap.seen e0.seen) ∧
    (e'.rssi = pyGetD snap.rssi e0.rssi) ∧
    (e'.dbFlags = pyGetD snap.dbFlags e0.dbFlags) ∧
    ((snap.flight = Option.none ∨
        ∃ s, snap.flight = some (PV.str s) ∧ pyStrip s = "") →
      e'.flight = e0.flight) ∧
    (snap.lat = Option.none →
      e'.lat = (if e0.lat = PV.none then PV.na else e0.lat)) ∧
    (snap.r_dst = Option.none →
      is_valid_position (pyGet snap.lat) (pyGet snap.lon) = false →
      e'.r_dst = PV.na) := by
  unfold updateExisting at h
  cases hfm : flightMerge snap {e0 with last_seen := now} with
  | error e =>
    rw [hfm] at h
    exact Except.noConfusion h
  | ok e1 =>
    rw [hfm] at h
    injection h with h
    have he1 : e1 = {{e0 with last_seen := now} with flight := e1.flight} :=
      flightMerge_ok_eq _ _ _ hfm
    have he' : e' = (updateCore G recvLat recvLon now snap e1).1 := by rw [h]
    have hplain : ∀ v : PV α, pyGetD (Option.none : Option (PV α)) v = v := fun _ => rfl
    refine ⟨?_, ?_, ?_, ?_, ?_, ?_, ?_, ?_, ?_, ?_, ?_, ?_, ?_, ?_⟩
    · rcases updateCore_fst_eq G recvLat recvLon now snap e1 with hca | hca <;>
        (rw [he', hca]; show pyGetD snap.r e1.registration = _; rw [he1])
    · rcases updateCore_fst_eq G recvLat recvLon now snap e1 with hca | hca <;>
        (rw [he', hca]; show pyGetD snap.t e1.type = _; rw [he1])
    · rcases updateCore_fst_eq G recvLat recvLon now snap e1 with hca | hca <;>
        (rw [he', hca]; show pyGetD snap.squawk e1.squawk = _; rw [he1])
    · rcases updateCore_fst_eq G recvLat recvLon now snap e1 with hca | hca <;>
        (rw [he', hca]; show pyGetD snap.alt_baro e1.alt_baro = _; rw [he1])
    · rcases updateCore_fst_eq G recvLat recvLon now snap e1 with hca | hca <;>
        (rw [he', hca]; show pyGetD snap.gs e1.gs = _; rw [he1])
    · rcases updateCore_fst_eq G recvLat recvLon now snap e1 with hca | hca <;>
        (rw [he', hca]; show pyGetD snap.baro_rate e1.baro_rate = _; rw [he1])
    · rcases updateCore_fst_eq G recvLat recvLon now snap e1 with hca | hca <;>
        (rw [he', hca]; show pyGetD snap.track e1.track = _; rw [he1])
    · rcases updateCore_fst_eq G recvLat recvLon now snap e1 with hca | hca <;>
        (rw [he', hca]; show pyGetD snap.messages e1.messages = _; rw [he1])
    · rcases updateCore_fst_eq G recvLat recvLon now snap e1 with hca | hca <;>
        (rw [he', hca]; show pyGetD snap.seen e1.seen = _; rw [he1])
    · rcases updateCore_fst_eq G recvLat recvLon now snap e1 with hca | hca <;>
        (rw [he', hca]; show pyGetD snap.rssi e1.rssi = _; rw [he1])
    · rcases updateCore_fst_eq G recvLat recvLon now snap e1 with hca | hca <;>
        (rw [he', hca]; show pyGetD snap.dbFlags e1.dbFlags = _; rw [he1])
    · intro hs
      have hflight : e1.flight = e0.flight :=
        flightMerge_ok_flight_of_empty snap {e0 with last_seen := now} e1 hfm hs
      rcases updateCore_fst_eq G recvLat recvLon now snap e1 with hca | hca <;>
        (rw [he', hca]; show e1.flight = e0.flight; exact hflight)
    · intro hlat
      have hv : is_valid_position (pyGet snap.lat) (pyGet snap.lon) = false := by
        rw [hlat]
        rfl
      rw [he', updateCore_fst_of_invalid G recvLat recvLon now snap e1 hv]
      show mergeLatLon e1.lat (pyGet snap.lat) = _
      rw [hlat, he1]
      simp [mergeLatLon, pyGet]
    · intro hrd hv
      rw [he', updateCore_fst_of_invalid G recvLat recvLon now snap e1 hv]
      show (if pyGetD snap.r_dst PV.na = PV.na ∨ pyGetD snap.r_dst PV.na = PV.none then
          (if is_valid_position (pyGet snap.lat) (pyGet snap.lon)
              ∧ recvLat ≠ 0 ∧ recvLon ≠ 0 then
            PV.num (pyRound2 (G.dist recvLat recvLon (pyGet snap.lat).toNum
              (pyGet snap.lon).toNum))
          else pyGetD snap.r_dst PV.na)
        else pyGetD snap.r_dst PV.na) = PV.na
      rw [hrd]
      simp [pyGetD, hv]

/-- Witness for C8 on concrete inputs: a snapshot carrying only a hex id
leaves the stored registration unchanged but resets the stored distance
to `'N/A'`. -/
theorem C8_field_merge_witness :
    (updateExisting zeroGeo 0 0 1 testSnapHexOnly testEntryFull).map
        (fun r => (r.1.registration, r.1.r_dst)) =
      Except.ok ((PV.str "N123AB" : PV ℚ), (PV.na : PV ℚ)) := by
  have h : updateExisting zeroGeo 0 0 1 testSnapHexOnly testEntryFull =
      Except.ok (updateCore zeroGeo 0 0 1 testSnapHexOnly
        {testEntryFull with last_seen := 1}) := rfl
  rcases hc : updateCore zeroGeo 0 0 1 testSnapHexOnly {testEntryFull with last_seen := 1}
    with ⟨e', out, pc⟩
  have hm := C8_field_merge zeroGeo 0 0 1 testSnapHexOnly testEntryFull e' out pc
    (by rw [h, hc])
  rw [h, hc]
  simp only [Except.map]
  rw [hm.1, hm.2.2.2.2.2.2.2.2.2.2.2.2.2 rfl (by decide)]
  refine congrArg Except.ok ?_
  decide

/-! ### Snapshot-loop helper lemmas -/

/-- One processed snapshot only appends to the upload buffer. -/
theorem processSnapshot_buffer {α : Type} [LinearOrderedField α] [FloorRing α]
    (env : Env α) (G : GeoFns α) (recvLat recvLon now : α) (st : TrackState α)
    (snap : Snapshot α) (st₁ : TrackState α)
    (h : processSnapshot env G recvLat recvLon now st snap = Except.ok st₁) :
    ∃ new, st₁.buffer = st.buffer ++ new := by
  unfold processSnapshot at h
  by_cases hhex : snap.hex = ""
  · rw [if_pos hhex] at h
    injection h with h
    exact ⟨[], by rw [← h]; simp⟩
  · rw [if_neg hhex] at h
    cases hdf : dictFind st.table snap.hex with
    | none =>
      simp only [hdf] at h
      cases hins : insertAircraft env G recvLat recvLon now snap with
      | error u =>
        simp only [hins] at h
        exact Except.noConfusion h
      | ok entry =>
        simp only [hins] at h
        injection h with h
        refine ⟨[entry], ?_⟩
        rw [← h]
        by_cases hv : is_valid_position (pyGet snap.lat) (pyGet snap.lon) = true <;>
          simp [hv, track_position_for_stats]
    | some e =>
      simp only [hdf] at h
      cases hupd : updateExisting G recvLat recvLon now snap e with
      | error e' =>
        simp only [hupd] at h
        exact Except.noConfusion h
      | ok r =>
        rcases r with ⟨e', outRec, pchanged⟩
        simp only [hupd] at h
        injection h with h
        refine ⟨[outRec], ?_⟩
        rw [← h]
        by_cases hp : pchanged = true <;> simp [hp, track_position_for_stats]

/-- The whole snapshot loop only appends to the upload buffer. -/
theorem processAll_buffer {α : Type} [LinearOrderedField α] [FloorRing α]
    (env : Env α) (G : GeoFns α) (recvLat recvLon now : α) :
    ∀ (snaps : List (Snapshot α)) (st st' : TrackState α),
      processAll env G recvLat recvLon now st snaps = Except.ok st' →
      ∃ new, st'.buffer = st.buffer ++ new := by
  intro snaps
  induction snaps with
  | nil =>
    intro st st' h
    injection h with h
    exact ⟨[], by rw [← h]; simp⟩
  | cons s rest ih =>
    intro st st' h
    unfold processAll at h
    cases hps : processSnapshot env G recvLat recvLon now st s with
    | error e =>
      rw [hps] at h
      exact Except.noConfusion h
    | ok st₁ =>
      rw [hps] at h
      rcases processSnapshot_buffer env G recvLat recvLon now st s st₁ hps with ⟨n1, h1⟩
      rcases ih st₁ st' h with ⟨n2, h2⟩
      exact ⟨n1 ++ n2, by rw [h2, h1, List.append_assoc]⟩

/-- C10: applying a snapshot set (including the eviction sweep) only
appends to `pending_aircraft`: every already-buffered `ObservationRecord`
— each a value copy made at append time — is left in place unchanged, so
later merges and evictions cannot alter buffered records before a
flush. -/
theorem C10_buffer_frame {α : Type} [LinearOrderedField α] [FloorRing α]
    (env : Env α) (G : GeoFns α) (recvLat recvLon now : α) (st : TrackState α)
    (snaps : List (Snapshot α)) (st' : TrackState α)
    (h : update_aircraft_tracking env G recvLat recvLon now st snaps = Except.ok st') :
    (∃ emitted, st'.buffer = st.buffer ++ emitted) ∧
      st'.buffer.take st.buffer.length = st.buffer := by
  unfold update_aircraft_tracking at h
  cases hpa : processAll env G recvLat recvLon now st snaps with
  | error e =>
    rw [hpa] at h
    exact Except.noConfusion h
  | ok st₁ =>
    rw [hpa] at h
    injection h with h
    rcases processAll_buffer env G recvLat recvLon now snaps st st₁ hpa with ⟨new, hnew⟩
    have hbuf : st'.buffer = st.buffer ++ new := by
      rw [← h]
      show st₁.buffer = _
      exact hnew
    exact ⟨⟨new, hbuf⟩, by rw [hbuf, List.take_left]⟩

/-- Witness for C10 on concrete inputs: a buffered record survives a tick
(with its eviction sweep) unchanged. -/
theorem C10_buffer_frame_witness :
    (evictionSweep (0 : ℚ) testStateBuf).buffer.take 1 = [testEntry] := by
  have h : update_aircraft_tracking testEnvNoS3 zeroGeo 0 0 0 testStateBuf [] =
      Except.ok (evictionSweep 0 testStateBuf) := rfl
  exact (C10_buffer_frame testEnvNoS3 zeroGeo 0 0 0 testStateBuf []
    (evictionSweep 0 testStateBuf) h).2

/-- C4 counterexample: applying a snapshot set containing an aircraft
with a latitude but no longitude inserts a tracking entry holding a lone
latitude (`lat = 40`, `lon = None`) — refuting the both-present-or-
both-absent invariant for arbitrary snapshot sets. -/
theorem C4_counterexample :
    (update_aircraft_tracking testEnvNoS3 zeroGeo 0 0 0 ({} : TrackState ℚ)
        [testSnapLatOnly]).map
      (fun st => (dictFind st.table "abc123").map (fun e => (e.lat, e.lon))) =
      Except.ok (some (PV.num 40, PV.none)) := by
  have hhex : ¬("abc123" = "") := by decide
  have hlat : ¬(PV.num (40 : ℚ) = PV.none ∨ PV.num (40 : ℚ) = PV.na) := by decide
  norm_num [update_aircraft_tracking, processAll, processSnapshot, insertAircraft,
    resolveIdentity, identAfterHistory, identAfterS3db, identAfterIcao, identAfterStatic,
    get_aircraft_type_from_s3_db, get_icao_cache_from_s3, testEnvNoS3, testEnv,
    testSnapLatOnly, evictionSweep, dictFind, dictInsert, keepOrNone, pyGet, pyGetD,
    track_position_for_stats, is_valid_position, PV.truthy, pyStrip, Except.map,
    List.filter, List.find?, hhex, hlat]

/-! ### Position-alignment helper lemmas -/

theorem mem_dictInsert {κ ν : Type} [DecidableEq κ] (p : κ × ν) (m : List (κ × ν))
    (k : κ) (v : ν) (h : p ∈ dictInsert m k v) : p = (k, v) ∨ p ∈ m := by
  unfold dictInsert at h
  by_cases hs : (dictFind m k).isSome
  · rw [if_pos hs] at h
    rcases List.mem_map.mp h with ⟨q, hq, hpq⟩
    by_cases hqk : q.1 = k
    · left
      rw [← hpq, if_pos hqk]
    · right
      rw [← hpq, if_neg hqk]
      exact hq
  · rw [if_neg hs] at h
    rcases List.mem_append.mp h with h | h
    · right
      exact h
    · left
      simpa using h

theorem dictFind_mem {κ ν : Type} [DecidableEq κ] (m : List (κ × ν)) (k : κ) (v : ν)
    (h : dictFind m k = some v) : (k, v) ∈ m := by
  unfold dictFind at h
  cases hf : m.find? (fun p => p.1 = k) with
  | none => rw [hf] at h; exact Option.noConfusion h
  | some q =>
    rw [hf] at h
    have hq : q ∈ m := List.mem_of_find?_eq_some hf
    have hqk : q.1 = k := by simpa using List.find?_some hf
    have hqv : q.2 = v := by simpa using h
    have : q = (k, v) := Prod.ext hqk hqv
    exact this ▸ hq

/-- The inserted entry's position fields come from `keepOrNone`. -/
theorem insertAircraft_latlon {α : Type} [LinearOrderedField α] [FloorRing α]
    (env : Env α) (G : GeoFns α) (recvLat recvLon now : α) (snap : Snapshot α)
    (entry : Entry α) (h : insertAircraft env G recvLat recvLon now snap = Except.ok entry) :
    entry.lat = keepOrNone snap.lat ∧ entry.lon = keepOrNone snap.lon := by
  unfold insertAircraft at h
  cases hflight : (if (pyGet snap.flight).truthy then
      match pyGet snap.flight with
      | PV.str s => Except.ok (pyStrip s)
      | _ => Except.error ()
    else Except.ok "N/A" : Except Unit String) with
  | error u =>
    rw [hflight] at h
    exact Except.noConfusion h
  | ok flight0 =>
    rw [hflight] at h
    injection h with h
    rw [← h]
    exact ⟨rfl, rfl⟩

/-- The updated entry's position fields: either the line 529-538 merge of
the stored values, or (valid-position branch) the snapshot values. -/
theorem updateExisting_latlon {α : Type} [LinearOrderedField α] [FloorRing α]
    (G : GeoFns α) (recvLat recvLon now : α) (snap : Snapshot α)
    (e0 e' out : Entry α) (pc : Bool)
    (h : updateExisting G recvLat recvLon now snap e0 = Except.ok (e', out, pc)) :
    (e'.lat = mergeLatLon e0.lat (pyGet snap.lat) ∧
      e'.lon = mergeLatLon e0.lon (pyGet snap.lon)) ∨
    (e'.lat = pyGet snap.lat ∧ e'.lon = pyGet snap.lon) := by
  unfold updateExisting at h
  cases hfm : flightMerge snap {e0 with last_seen := now} with
  | error e =>
    rw [hfm] at h
    exact Except.noConfusion h
  | ok e1 =>
    rw [hfm] at h
    injection h with h
    have he1 : e1 = {{e0 with last_seen := now} with flight := e1.flight} :=
      flightMerge_ok_eq _ _ _ hfm
    have he' : e' = (updateCore G recvLat recvLon now snap e1).1 := by rw [h]
    rcases updateCore_fst_eq G recvLat recvLon now snap e1 with hca | hca
    · left
      rw [he', hca]
      constructor
      · show mergeLatLon e1.lat (pyGet snap.lat) = _
        rw [he1]
      · show mergeLatLon e1.lon (pyGet snap.lon) = _
        rw [he1]
    · right
      rw [he', hca]
      exact ⟨rfl, rfl⟩

/-- `posFieldsOk` is preserved by the stored-position merge against an
aligned snapshot. -/
theorem posFieldsOk_merge {α : Type} [LinearOrderedField α] [FloorRing α]
    (e : Entry α) (snap : Snapshot α) (he : posFieldsOk e) (hs : alignedPos snap)
    (e' : Entry α)
    (hlat : e'.lat = mergeLatLon e.lat (pyGet snap.lat))
    (hlon : e'.lon = mergeLatLon e.lon (pyGet snap.lon)) : posFieldsOk e' := by
  unfold posFieldsOk
  rcases hs with ⟨h1, h2⟩ | ⟨h1, h2⟩ | ⟨h1, h2⟩
  · left
    constructor
    · rw [hlat, mergeLatLon, if_pos]
      · exact h1
      · cases hl : pyGet snap.lat <;> simp_all [PV.isNum]
    · rw [hlon, mergeLatLon, if_pos]
      · exact h2
      · cases hl : pyGet snap.lon <;> simp_all [PV.isNum]
  · rw [hlat, hlon, h1, h2]
    rcases he with ⟨he1, he2⟩ | ⟨he1, he2⟩
    · left
      simp only [mergeLatLon, ne_eq, not_true_eq_false, if_false, ite_not]
      constructor
      · cases hl : e.lat <;> simp_all [PV.isNum]
      · cases hl : e.lon <;> simp_all [PV.isNum]
    · right
      constructor
      · rcases he1 with he1 | he1 <;> simp [mergeLatLon, he1]
      · rcases he2 with he2 | he2 <;> simp [mergeLatLon, he2]
  · rw [hlat, hlon, h1, h2]
    right
    constructor <;> simp [mergeLatLon]

/-- `posFieldsOk` holds of any entry taking both position fields directly
from an aligned snapshot. -/
theorem posFieldsOk_direct {α : Type} [LinearOrderedField α] [FloorRing α]
    (snap : Snapshot α) (hs : alignedPos snap) (e' : Entry α)
    (hlat : e'.lat = pyGet snap.lat) (hlon : e'.lon = pyGet snap.lon) :
    posFieldsOk e' := by
  rcases hs with ⟨h1, h2⟩ | ⟨h1, h2⟩ | ⟨h1, h2⟩
  · left
    rw [hlat, hlon]
    exact ⟨h1, h2⟩
  · right
    rw [hlat, hlon, h1, h2]
    simp
  · right
    rw [hlat, hlon, h1, h2]
    simp

/-- One processed aligned snapshot preserves the table alignment. -/
theorem processSnapshot_aligned {α : Type} [LinearOrderedField α] [FloorRing α]
    (env : Env α) (G : GeoFns α) (recvLat recvLon now : α) (st : TrackState α)
    (snap : Snapshot α) (st₁ : TrackState α) (hst : tableAligned st)
    (hs : alignedPos snap)
    (h : processSnapshot env G recvLat recvLon now st snap = Except.ok st₁) :
    tableAligned st₁ := by
  unfold processSnapshot at h
  by_cases hhex : snap.hex = ""
  · rw [if_pos hhex] at h
    injection h with h
    rw [← h]
    exact hst
  · rw [if_neg hhex] at h
    cases hdf : dictFind st.table snap.hex with
    | none =>
      simp only [hdf] at h
      cases hins : insertAircraft env G recvLat recvLon now snap with
      | error u =>
        simp only [hins] at h
        exact Except.noConfusion h
      | ok entry =>
        simp only [hins] at h
        injection h with h
        have hentry : posFieldsOk entry := by
          rcases insertAircraft_latlon env G recvLat recvLon now snap entry hins
            with ⟨hlat, hlon⟩
          rcases hs with ⟨h1, h2⟩ | ⟨h1, h2⟩ | ⟨h1, h2⟩
          · left
            constructor
            · rw [hlat, keepOrNone, if_neg]
              · exact h1
              · cases hl : pyGet snap.lat <;> simp_all [PV.isNum]
            · rw [hlon, keepOrNone, if_neg]
              · exact h2
              · cases hl : pyGet snap.lon <;> simp_all [PV.isNum]
          · right
            rw [hlat, hlon, keepOrNone, keepOrNone, h1, h2]
            simp
          · right
            rw [hlat, hlon, keepOrNone, keepOrNone, h1, h2]
            simp
        intro p hp
        have htab : p ∈ dictInsert st.table snap.hex entry := by
          rw [← h] at hp
          by_cases hv : is_valid_position (pyGet snap.lat) (pyGet snap.lon) = true <;>
            simp_all [track_position_for_stats]
        rcases mem_dictInsert p _ _ _ htab with hpe | hpm
        · rw [hpe]
          exact hentry
        · exact hst p hpm
    | some e =>
      simp only [hdf] at h
      cases hupd : updateExisting G recvLat recvLon now snap e with
      | error e' =>
        simp only [hupd] at h
        exact Except.noConfusion h
      | ok r =>
        rcases r with ⟨e', outRec, pchanged⟩
        simp only [hupd] at h
        injection h with h
        have hold : posFieldsOk e := hst _ (dictFind_mem st.table snap.hex e hdf)
        have hentry : posFieldsOk e' := by
          rcases updateExisting_latlon G recvLat recvLon now snap e e' outRec pchanged hupd
            with ⟨hlat, hlon⟩ | ⟨hlat, hlon⟩
          · exact posFieldsOk_merge e snap hold hs e' hlat hlon
          · exact posFieldsOk_direct snap hs e' hlat hlon
        intro p hp
        have htab : p ∈ dictInsert st.table snap.hex e' := by
          rw [← h] at hp
          by_cases hv : pchanged = true <;> simp_all [track_position_for_stats]
        rcases mem_dictInsert p _ _ _ htab with hpe | hpm
        · rw [hpe]
          exact hentry
        · exact hst p hpm

/-- C4 (amended): the both-present-or-both-absent position invariant
holds after any apply of a snapshot set, provided every applied snapshot
supplies latitude and longitude together (both numeric, both
absent/null, or both the `'N/A'` marker); a snapshot supplying only one
of them breaks it (counterexample). -/
theorem C4_position_alignment {α : Type} [LinearOrderedField α] [FloorRing α]
    (env : Env α) (G : GeoFns α) (recvLat recvLon now : α) (st : TrackState α)
    (snaps : List (Snapshot α)) (st' : TrackState α) (hst : tableAligned st)
    (hsnaps : ∀ s ∈ snaps, alignedPos s)
    (h : update_aircraft_tracking env G recvLat recvLon now st snaps = Except.ok st') :
    tableAligned st' := by
  unfold update_aircraft_tracking at h
  have haux : ∀ (l : List (Snapshot α)) (s0 s1 : TrackState α), tableAligned s0 →
      (∀ s ∈ l, alignedPos s) →
      processAll env G recvLat recvLon now s0 l = Except.ok s1 → tableAligned s1 := by
    intro l
    induction l with
    | nil =>
      intro s0 s1 h0 _ hp
      injection hp with hp
      rw [← hp]
      exact h0
    | cons x rest ih =>
      intro s0 s1 h0 hall hp
      unfold processAll at hp
      cases hps : processSnapshot env G recvLat recvLon now s0 x with
      | error e =>
        rw [hps] at hp
        exact Except.noConfusion hp
      | ok smid =>
        rw [hps] at hp
        exact ih smid s1
          (processSnapshot_aligned env G recvLat recvLon now s0 x smid h0
            (hall x (List.mem_cons_self x rest)) hps)
          (fun s hsm => hall s (List.mem_cons_of_mem x hsm)) hp
  cases hpa : processAll env G recvLat recvLon now st snaps with
  | error e =>
    rw [hpa] at h
    exact Except.noConfusion h
  | ok st₁ =>
    rw [hpa] at h
    injection h with h
    have h1 : tableAligned st₁ := haux snaps st st₁ hst hsnaps hpa
    intro p hp
    rw [← h] at hp
    have : p ∈ st₁.table := by
      have := hp
      simp only [evictionSweep, List.mem_filter] at this
      exact this.1
    exact h1 p this

/-- Witness for C4 on concrete inputs: a state whose single entry holds a
full position stays aligned across a tick. -/
theorem C4_position_alignment_witness :
    tableAligned (evictionSweep (0 : ℚ) testStateAligned) :=
  C4_position_alignment testEnvNoS3 zeroGeo 0 0 0 testStateAligned []
    (evictionSweep 0 testStateAligned)
    (by
      intro p hp
      simp only [testStateAligned, List.mem_singleton] at hp
      rw [hp]
      left
      decide)
    (by simp) rfl

/-! ## Claim C3: the concrete first-arrival scenario -/

/-- C3 (counterexample): the scenario snapshot `{hex: "abc123", lat: 40.0,
lon: -74.0, alt_baro: 35000}` arriving for the first time produces a
record whose `data_quality` is `None` (line 480 of the insert branch),
not the claimed `'GPS'`. -/
theorem C3_counterexample :
    (insertAircraft testEnvR realGeo 40.1 (-74.1) 0 testSnapC3).map
        (fun e => e.data_quality) = Except.ok PV.none ∧
      (PV.none : PV ℝ) ≠ PV.str "GPS" := by
  constructor
  · rfl
  · intro h
    exact PV.noConfusion h

/-- Full evaluation of the insert branch on the C3 scenario. -/
theorem insertAircraft_C3 :
    insertAircraft testEnvR realGeo 40.1 (-74.1) 0 testSnapC3 =
      Except.ok entryC3 := by
  have hv : is_valid_position (PV.num (40:ℝ)) (PV.num (-74:ℝ)) = true := by
    simp only [is_valid_position, Bool.and_eq_true, decide_eq_true_eq]
    norm_num
  have hcond : is_valid_position (PV.num (40:ℝ)) (PV.num (-74:ℝ)) = true ∧
      (40.1:ℝ) ≠ 0 ∧ (-74.1:ℝ) ≠ 0 := by
    refine ⟨hv, by norm_num, by norm_num⟩
  simp only [insertAircraft, testEnvR, testSnapC3, pyGet, pyGetD,
    Option.getD_some, Option.getD_none, PV.truthy, keepOrNone,
    resolveIdentity, identAfterHistory, identAfterS3db, identAfterIcao,
    identAfterStatic, get_aircraft_type_from_s3_db, get_icao_cache_from_s3,
    realGeo, PV.toNum]
  have hne1 : ∀ x : ℝ, (PV.num x = (PV.none : PV ℝ)) = False :=
    fun x => eq_false (fun h => PV.noConfusion h)
  have hne2 : ∀ x : ℝ, (PV.num x = (PV.na : PV ℝ)) = False :=
    fun x => eq_false (fun h => PV.noConfusion h)
  simp [entryC3, distC3, hv, hne1, hne2,
    (by norm_num : ¬(40.1:ℝ) = 0), (by norm_num : ¬(74.1:ℝ) = 0)]

/-- `roundHalfEven` never rounds below the floor. -/
theorem roundHalfEven_ge_floor {α : Type} [LinearOrderedField α] [FloorRing α]
    (y : α) : ⌊y⌋ ≤ roundHalfEven y := by
  unfold roundHalfEven
  dsimp only
  split_ifs <;> omega

/-- `round(d, 2)` is positive for `d ≥ 1`. -/
theorem pyRound2_pos_of_one_le {α : Type} [LinearOrderedField α] [FloorRing α]
    {d : α} (h : 1 ≤ d) : 0 < pyRound2 d := by
  have h1 : (100 : ℤ) ≤ ⌊(100 : α) * d⌋ := by
    rw [Int.le_floor]
    push_cast
    linarith
  have h2 : (100 : ℤ) ≤ roundHalfEven (100 * d) :=
    le_trans h1 (roundHalfEven_ge_floor _)
  have h3 : (100 : α) ≤ (roundHalfEven ((100 : α) * d) : α) := by
    exact_mod_cast h2
  unfold pyRound2
  have : (0 : α) < 100 := by norm_num
  exact div_pos (by linarith) this

/-- For `0 ≤ a < 1` the haversine angle `atan2 √a √(1-a)` is at least
`√a` (it equals `arcsin √a`). -/
theorem sqrt_le_atan2_sqrt {a : ℝ} (h0 : 0 ≤ a) (h1 : a < 1) :
    Real.sqrt a ≤ atan2 (Real.sqrt a) (Real.sqrt (1 - a)) := by
  have h1a : (0 : ℝ) < 1 - a := by linarith
  have hx : 0 < Real.sqrt (1 - a) := Real.sqrt_pos.mpr h1a
  rw [atan2, if_pos hx]
  have hsa : 0 ≤ Real.sqrt a := Real.sqrt_nonneg _
  have hsa1 : Real.sqrt a ≤ 1 := by
    have := Real.sqrt_le_sqrt (le_of_lt h1)
    rwa [Real.sqrt_one] at this
  have key : Real.arctan (Real.sqrt a / Real.sqrt (1 - a)) =
      Real.arcsin (Real.sqrt a) := by
    rw [Real.arctan_eq_arcsin]
    have e1 : 1 + (Real.sqrt a / Real.sqrt (1 - a)) ^ 2 = (1 - a)⁻¹ := by
      rw [div_pow, Real.sq_sqrt h0, Real.sq_sqrt (le_of_lt h1a)]
      field_simp
    rw [e1, Real.sqrt_inv, div_inv_eq_mul, div_mul_cancel₀]
    exact ne_of_gt hx
  rw [key]
  have hnn : 0 ≤ Real.arcsin (Real.sqrt a) := Real.arcsin_nonneg.mpr hsa
  calc Real.sqrt a = Real.sin (Real.arcsin (Real.sqrt a)) :=
        (Real.sin_arcsin (by linarith) hsa1).symm
    _ ≤ Real.arcsin (Real.sqrt a) := Real.sin_le hnn

/-- The scenario distance is at least one nautical mile. -/
theorem distC3_ge_one : (1 : ℝ) ≤ distC3 := by
  have e40 : ((40 : ℝ) - 40.1) * Real.pi / 180 / 2 = -(Real.pi / 3600) := by
    rw [show ((40 : ℝ) - 40.1) = -(1 / 10) from by norm_num]
    ring
  have e74 : ((-74 : ℝ) - (-74.1)) * Real.pi / 180 / 2 = Real.pi / 3600 := by
    rw [show ((-74 : ℝ) - (-74.1)) = (1 / 10 : ℝ) from by norm_num]
    ring
  simp only [distC3, calculate_distance, radians]
  rw [e40, e74, Real.sin_neg, neg_sq]
  set s := Real.sin (Real.pi / 3600) with hs
  set c1 := Real.cos (40.1 * Real.pi / 180) with hc1def
  set c2 := Real.cos ((40 : ℝ) * Real.pi / 180) with hc2def
  have hx0 : (0 : ℝ) < Real.pi / 3600 := by positivity
  have hx1 : Real.pi / 3600 ≤ 1 / 900 := by
    have := Real.pi_le_four
    linarith
  have hxpi : Real.pi / 3600 < Real.pi :=
    div_lt_self Real.pi_pos (by norm_num)
  have hs0 : 0 < s := by
    rw [hs]
    exact Real.sin_pos_of_pos_of_lt_pi hx0 hxpi
  have hsx : s ≤ 1 / 900 := by
    rw [hs]
    exact le_trans (le_of_lt (Real.sin_lt hx0)) hx1
  have hslb : (1 / 1300 : ℝ) ≤ s := by
    rw [hs]
    have hcube := Real.sin_gt_sub_cube hx0 (le_trans hx1 (by norm_num))
    have hxlb : (1 / 1200 : ℝ) ≤ Real.pi / 3600 := by
      have := Real.pi_gt_three
      linarith
    have hx3 : (Real.pi / 3600) ^ 3 ≤ (1 / 729000000 : ℝ) := by
      calc (Real.pi / 3600) ^ 3 ≤ (1 / 900 : ℝ) ^ 3 :=
            pow_le_pow_left₀ (le_of_lt hx0) hx1 3
        _ = 1 / 729000000 := by norm_num
    linarith
  have hθ1a : (0 : ℝ) < 40.1 * Real.pi / 180 := by positivity
  have hθ1b : 40.1 * Real.pi / 180 < Real.pi / 2 := by
    have := Real.pi_pos
    linarith
  have hθ2a : (0 : ℝ) < (40 : ℝ) * Real.pi / 180 := by positivity
  have hθ2b : (40 : ℝ) * Real.pi / 180 < Real.pi / 2 := by
    have := Real.pi_pos
    linarith
  have hc1 : 0 < c1 := by
    rw [hc1def]
    refine Real.cos_pos_of_mem_Ioo (Set.mem_Ioo.mpr ⟨?_, hθ1b⟩)
    have := Real.pi_pos
    linarith
  have hc2 : 0 < c2 := by
    rw [hc2def]
    refine Real.cos_pos_of_mem_Ioo (Set.mem_Ioo.mpr ⟨?_, hθ2b⟩)
    have := Real.pi_pos
    linarith
  have hc1le : c1 ≤ 1 := by
    rw [hc1def]
    exact Real.cos_le_one _
  have hc2le : c2 ≤ 1 := by
    rw [hc2def]
    exact Real.cos_le_one _
  have hs2 : s ^ 2 ≤ (1 / 810000 : ℝ) := by nlinarith [hs0, hsx]
  have hcc1 : c1 * c2 ≤ 1 := by nlinarith [hc1, hc2, hc1le, hc2le]
  have hccnn : 0 ≤ c1 * c2 * s ^ 2 :=
    mul_nonneg (mul_nonneg hc1.le hc2.le) (sq_nonneg s)
  have hcc : c1 * c2 * s ^ 2 ≤ s ^ 2 := mul_le_of_le_one_left (sq_nonneg s) hcc1
  have hA0 : (0 : ℝ) ≤ s ^ 2 + c1 * c2 * s ^ 2 := by
    have := sq_nonneg s
    linarith
  have hA1 : s ^ 2 + c1 * c2 * s ^ 2 < 1 := by linarith
  have hAs : s ^ 2 ≤ s ^ 2 + c1 * c2 * s ^ 2 := by linarith
  have hsqA : s ≤ Real.sqrt (s ^ 2 + c1 * c2 * s ^ 2) := by
    have h1 := Real.sqrt_le_sqrt hAs
    rwa [Real.sqrt_sq (le_of_lt hs0)] at h1
  have hat := sqrt_le_atan2_sqrt hA0 hA1
  have hchain : (1 / 1300 : ℝ) ≤
      atan2 (Real.sqrt (s ^ 2 + c1 * c2 * s ^ 2))
        (Real.sqrt (1 - (s ^ 2 + c1 * c2 * s ^ 2))) := by
    linarith
  linarith

/-- C3: the scenario snapshot `{hex: "abc123", lat: 40.0, lon: -74.0,
alt_baro: 35000}` arriving for the first time with the receiver at
(40.1, -74.1) inserts a record whose `data_quality` is `None` (not the
claimed `'GPS'`), whose positional distance `round(dist, 2)` is positive,
whose altitude falls in zone 7, and whose reception record replaces the
stored `(sector, 7)` record whenever the new slant range strictly beats
the stored one. -/
theorem C3_scenario (recs : RecMap ℝ) (stored : SectorRecord ℝ)
    (slant bearing : ℝ)
    (hfind : dictFind recs (get_sector bearing, 7) = some stored)
    (hbeat : stored.slant_distance < slant) :
    insertAircraft testEnvR realGeo 40.1 (-74.1) 0 testSnapC3 =
        Except.ok entryC3 ∧
      entryC3.data_quality = PV.none ∧
      entryC3.r_dst = PV.num (pyRound2 distC3) ∧
      0 < pyRound2 distC3 ∧
      get_altitude_zone ((35000 : ℝ)) = 7 ∧
      update_sector_altitude_records 0 recs entryC3.toARec slant bearing =
        dictInsert recs (get_sector bearing, 7)
          { aircraft := entryC3.toARec, slant_distance := slant,
            positional_distance := PV.num (pyRound2 distC3),
            bearing := bearing, altitude_zone := 7, timestamp := 0 } := by
  have hzone : get_altitude_zone ((35000 : ℝ)) = 7 := by
    rw [get_altitude_zone, if_neg (by norm_num : ¬(35000 : ℝ) < 0)]
    rw [show (35000 : ℝ) / 5000 = ((7 : ℤ) : ℝ) from by norm_num]
    exact Int.floor_intCast 7
  have hrecalt : recordAltitude (Entry.toARec entryC3) = (35000 : ℝ) := by
    simp [recordAltitude, Entry.toARec, entryC3]
  refine ⟨insertAircraft_C3, rfl, rfl,
    pyRound2_pos_of_one_le distC3_ge_one, hzone, ?_⟩
  simp only [update_sector_altitude_records, hrecalt, hzone, hfind]
  rw [if_pos hbeat]
  simp [Entry.toARec, entryC3]

/-- Witness: the C3 scenario applied to the stored record `testSectorR`
(slant range 0) with new slant range 1 and bearing 0. -/
theorem C3_scenario_witness :
    insertAircraft testEnvR realGeo 40.1 (-74.1) 0 testSnapC3 =
        Except.ok entryC3 ∧
      entryC3.data_quality = PV.none ∧
      entryC3.r_dst = PV.num (pyRound2 distC3) ∧
      0 < pyRound2 distC3 ∧
      get_altitude_zone ((35000 : ℝ)) = 7 ∧
      update_sector_altitude_records 0 testRecsR entryC3.toARec 1 0 =
        dictInsert testRecsR (get_sector (0 : ℝ), 7)
          { aircraft := entryC3.toARec, slant_distance := 1,
            positional_distance := PV.num (pyRound2 distC3),
            bearing := 0, altitude_zone := 7, timestamp := 0 } := by
  have hgs : get_sector (0 : ℝ) = 0 := by
    norm_num [get_sector]
  have hfind : dictFind testRecsR (get_sector (0 : ℝ), 7) = some testSectorR := by
    rw [hgs]
    rfl
  exact C3_scenario testRecsR testSectorR 1 0 hfind
    (by norm_num [testSectorR])

/-! ## String-level helper lemmas for the reception-record round trip -/

theorem charVal_digitChar {d : ℕ} (h : d < 10) : charVal (digitChar d) = d := by
  interval_cases d <;> decide

theorem isDigitB_digitChar {d : ℕ} (h : d < 10) : isDigitB (digitChar d) = true := by
  interval_cases d <;> decide

theorem isDigitB_ne_dot {c : Char} (h : isDigitB c = true) : c ≠ '.' := by
  intro he
  rw [he] at h
  exact absurd h (by decide)

theorem isDigitB_ne_tab {c : Char} (h : isDigitB c = true) : c ≠ '\t' := by
  intro he
  rw [he] at h
  exact absurd h (by decide)

theorem isDigitDot_of_isDigitB {c : Char} (h : isDigitB c = true) :
    isDigitDot c = true := by
  simp [isDigitDot, h]

theorem natRenderAux_eq : ∀ (fuel n : ℕ), n ≤ fuel →
    natRenderAux fuel n = (Nat.digits 10 n).map digitChar
  | 0, n, h => by
    have : n = 0 := Nat.le_zero.mp h
    subst this
    simp [natRenderAux]
  | fuel + 1, 0, _ => by simp [natRenderAux]
  | fuel + 1, n + 1, h => by
    have hd : (n + 1) / 10 ≤ fuel := by
      have := Nat.div_lt_self (Nat.succ_pos n) (by norm_num : 1 < 10)
      omega
    rw [show natRenderAux (fuel + 1) (n + 1) =
        digitChar ((n + 1) % 10) :: natRenderAux fuel ((n + 1) / 10) from rfl]
    rw [Nat.digits_def' (by norm_num : (1:ℕ) < 10) (Nat.succ_pos n)]
    rw [List.map_cons]
    congr 1
    exact natRenderAux_eq fuel ((n + 1) / 10) hd

theorem natRender_eq (n : ℕ) (hn : n ≠ 0) :
    natRender n = ((Nat.digits 10 n).map digitChar).reverse := by
  rw [natRender, if_neg hn, natRenderAux_eq n n le_rfl]

theorem natRender_ne_nil (n : ℕ) : natRender n ≠ [] := by
  by_cases hn : n = 0
  · subst hn
    decide
  · rw [natRender_eq n hn]
    simp [Nat.digits_ne_nil_iff_ne_zero.mpr hn]

theorem natRender_all_digits (n : ℕ) :
    ∀ c ∈ natRender n, isDigitB c = true := by
  by_cases hn : n = 0
  · subst hn
    decide
  · rw [natRender_eq n hn]
    intro c hc
    rw [List.mem_reverse, List.mem_map] at hc
    obtain ⟨d, hd, rfl⟩ := hc
    exact isDigitB_digitChar (Nat.digits_lt_base (by norm_num) hd)

theorem parseNat_natRender (n : ℕ) : parseNat (natRender n) = n := by
  by_cases hn : n = 0
  · subst hn
    decide
  · rw [natRender_eq n hn, parseNat, List.map_reverse, List.reverse_reverse,
      List.map_map]
    have hmap : (Nat.digits 10 n).map (charVal ∘ digitChar) = Nat.digits 10 n := by
      have h1 : ∀ d ∈ Nat.digits 10 n, (charVal ∘ digitChar) d = id d :=
        fun d hd => charVal_digitChar (Nat.digits_lt_base (by norm_num) hd)
      rw [List.map_congr_left h1, List.map_id]
    rw [hmap, Nat.ofDigits_digits]

theorem parseNat_append (a b : List Char) :
    parseNat (a ++ b) = parseNat a * 10 ^ b.length + parseNat b := by
  rw [parseNat, parseNat, parseNat, List.map_append, List.reverse_append,
    Nat.ofDigits_append]
  have hlen : ((b.map charVal).reverse).length = b.length := by simp
  rw [hlen]
  ring

theorem parseNat_cons_zero (xs : List Char) :
    parseNat ('0' :: xs) = parseNat xs := by
  have h0 : parseNat ['0'] = 0 := by decide
  rw [show ('0' :: xs) = ['0'] ++ xs from rfl, parseNat_append, h0]
  ring

theorem parseNat_natPad (l : List Char) (len : ℕ) :
    parseNat (natPad l len) = parseNat l := by
  rw [natPad]
  induction (len - l.length) with
  | zero => rfl
  | succ k ih =>
    rw [List.replicate_succ, List.cons_append, parseNat_cons_zero, ih]

theorem natPad_length (l : List Char) (len : ℕ) :
    len ≤ (natPad l len).length := by
  simp [natPad]
  omega

theorem natPad_all {l : List Char} {p : Char → Bool} (h : ∀ c ∈ l, p c = true)
    (hz : p '0' = true) (len : ℕ) : ∀ c ∈ natPad l len, p c = true := by
  intro c hc
  rw [natPad, List.mem_append] at hc
  rcases hc with hc | hc
  · rw [List.eq_of_mem_replicate hc]
    exact hz
  · exact h c hc

theorem splitOnChar_ne_nil (sep : Char) (l : List Char) :
    splitOnChar sep l ≠ [] := by
  cases l with
  | nil => simp [splitOnChar]
  | cons c rest =>
    rw [splitOnChar]
    cases hs : splitOnChar sep rest with
    | nil => simp
    | cons h t =>
      by_cases hc : c = sep <;> simp [hc]

theorem splitOnChar_not_mem {sep : Char} {l : List Char} (h : sep ∉ l) :
    splitOnChar sep l = [l] := by
  induction l with
  | nil => rfl
  | cons c rest ih =>
    have hc : c ≠ sep := fun he => h (he ▸ List.mem_cons_self c rest)
    have hr : sep ∉ rest := fun hm => h (List.mem_cons_of_mem c hm)
    simp [splitOnChar, ih hr, hc]

theorem splitOnChar_append_cons {sep : Char} (a b : List Char) (ha : sep ∉ a) :
    splitOnChar sep (a ++ sep :: b) = a :: splitOnChar sep b := by
  induction a with
  | nil =>
    rw [List.nil_append, splitOnChar]
    cases hs : splitOnChar sep b with
    | nil => exact absurd hs (splitOnChar_ne_nil sep b)
    | cons h t => simp
  | cons c a' ih =>
    have hc : c ≠ sep := fun he => ha (he ▸ List.mem_cons_self c a')
    have ha' : sep ∉ a' := fun hm => ha (List.mem_cons_of_mem c hm)
    rw [List.cons_append, splitOnChar, ih ha']
    simp [hc]

theorem takeWhile_append_all {p : Char → Bool} (a b : List Char)
    (ha : ∀ c ∈ a, p c = true)
    (hb : match b with | [] => True | c :: _ => p c = false) :
    (a ++ b).takeWhile p = a := by
  induction a with
  | nil =>
    cases b with
    | nil => rfl
    | cons c b' =>
      simp only [List.nil_append, List.takeWhile_cons]
      rw [hb]
      rfl
  | cons c a' ih =>
    rw [List.cons_append, List.takeWhile_cons,
      ha c (List.mem_cons_self c a')]
    rw [ih (fun x hx => ha x (List.mem_cons_of_mem c hx))]
    rfl

theorem dropWhile_append_cons_neg {p : Char → Bool} {x : Char}
    (hx : p x = false) (a b : List Char) :
    (a ++ x :: b).dropWhile p = a.dropWhile p ++ x :: b := by
  induction a with
  | nil =>
    simp only [List.nil_append, List.dropWhile_cons, hx]
    rfl
  | cons c a' ih =>
    by_cases hc : p c = true
    · rw [List.cons_append, List.dropWhile_cons, List.dropWhile_cons,
        if_pos hc, if_pos hc, ih]
    · rw [List.cons_append, List.dropWhile_cons, List.dropWhile_cons,
        if_neg hc, if_neg hc]
      simp

theorem isPrefixOf_append (lit rest : List Char) :
    lit.isPrefixOf (lit ++ rest) = true := by
  induction lit with
  | nil => cases rest <;> rfl
  | cons a as ih =>
    simp [List.cons_append, List.isPrefixOf, ih]

/-- `re.search(lit + '(P+)')` on a string that begins with the literal
followed by a nonempty maximal `P`-run. -/
theorem findSub_of_prefix (lit X Y : List Char) (pred : Char → Bool)
    (hlit : lit ≠ []) (hX : ∀ c ∈ X, pred c = true) (hXne : X ≠ [])
    (hY : match Y with | [] => True | c :: _ => pred c = false) :
    findSub lit pred (lit ++ (X ++ Y)) = some X := by
  cases lit with
  | nil => exact absurd rfl hlit
  | cons c lit' =>
    rw [List.cons_append, findSub]
    rw [show c :: (lit' ++ (X ++ Y)) = (c :: lit') ++ (X ++ Y) from rfl]
    rw [if_pos]
    · have hdrop : ((c :: lit') ++ (X ++ Y)).drop (c :: lit').length = X ++ Y :=
        List.drop_left _ _
      rw [hdrop, takeWhile_append_all X Y hX hY]
      rw [if_neg]
      simp [hXne]
    · exact of_eq_true (eq_true (isPrefixOf_append (c :: lit') (X ++ Y)))

theorem roundHalfEven_nonneg {α : Type} [LinearOrderedField α] [FloorRing α]
    {y : α} (h : 0 ≤ y) : 0 ≤ roundHalfEven y :=
  le_trans (Int.floor_nonneg.mpr h) (roundHalfEven_ge_floor y)

theorem decExpAux_den_aux (q : ℚ) :
    ∀ (l : List ℕ) (k : ℕ),
      l.findSome? (fun k => if (q * 10 ^ k).den = 1 then some k
        else Option.none) = some k →
      (q * 10 ^ k).den = 1 := by
  intro l
  induction l with
  | nil => intro k h; simp [List.findSome?_nil] at h
  | cons a t ih =>
    intro k h
    rw [List.findSome?_cons] at h
    by_cases hP : (q * 10 ^ a).den = 1
    · rw [if_pos hP] at h
      have : a = k := by injection h
      exact this ▸ hP
    · rw [if_neg hP] at h
      exact ih k h

theorem decExpAux_den {q : ℚ} {k : ℕ} (h : decExpAux q = some k) :
    (q * 10 ^ k).den = 1 :=
  decExpAux_den_aux q (List.range 1100) k h

/-- A rational with denominator 1 is its own numerator. -/
theorem den_one_eq_num {q : ℚ} (h : q.den = 1) : ((q.num : ℚ)) = q := by
  conv_rhs => rw [← Rat.num_div_den q]
  rw [h]
  simp

/-- Take/drop decomposition of a zero-padded digit string. -/
theorem padded_props (l : List Char) (e : ℕ)
    (hdig : ∀ c ∈ l, isDigitB c = true) :
    (∀ c ∈ (natPad l (e + 1)).take ((natPad l (e + 1)).length - e),
        isDigitB c = true) ∧
    (∀ c ∈ (natPad l (e + 1)).drop ((natPad l (e + 1)).length - e),
        isDigitB c = true) ∧
    (natPad l (e + 1)).take ((natPad l (e + 1)).length - e) ≠ [] ∧
    ((natPad l (e + 1)).drop ((natPad l (e + 1)).length - e)).length = e ∧
    parseNat ((natPad l (e + 1)).take ((natPad l (e + 1)).length - e)) * 10 ^ e +
      parseNat ((natPad l (e + 1)).drop ((natPad l (e + 1)).length - e)) =
      parseNat l := by
  have hds : ∀ c ∈ natPad l (e + 1), isDigitB c = true :=
    natPad_all hdig (by decide) (e + 1)
  have hlen : e + 1 ≤ (natPad l (e + 1)).length := natPad_length l (e + 1)
  refine ⟨fun c hc => hds c ((List.take_sublist _ _).subset hc),
    fun c hc => hds c ((List.drop_sublist _ _).subset hc), ?_, ?_, ?_⟩
  · apply List.ne_nil_of_length_pos
    rw [List.length_take]
    omega
  · rw [List.length_drop]
    omega
  · have hdl : ((natPad l (e + 1)).drop ((natPad l (e + 1)).length - e)).length
        = e := by
      rw [List.length_drop]
      omega
    have happ := parseNat_append
      ((natPad l (e + 1)).take ((natPad l (e + 1)).length - e))
      ((natPad l (e + 1)).drop ((natPad l (e + 1)).length - e))
    rw [List.take_append_drop, parseNat_natPad, hdl] at happ
    exact happ.symm

/-- Decomposition of a `%.dpf`-formatted nonnegative value. -/
theorem fmtFixed_decomp (dp : ℕ) (q : ℚ) (hdp : 0 < dp) (hq : 0 ≤ q) :
    ∃ A B, fmtFixed dp q = A ++ '.' :: B ∧
      (∀ c ∈ A, isDigitB c = true) ∧ (∀ c ∈ B, isDigitB c = true) ∧
      A ≠ [] ∧ B.length = dp ∧
      parseNat A * 10 ^ dp + parseNat B =
        (roundHalfEven (q * 10 ^ dp)).natAbs := by
  have hn : 0 ≤ roundHalfEven (q * 10 ^ dp) :=
    roundHalfEven_nonneg (mul_nonneg hq (by positivity))
  obtain ⟨h1, h2, h3, h4, h5⟩ :=
    padded_props (natRender (roundHalfEven (q * 10 ^ dp)).natAbs) dp
      (natRender_all_digits _)
  refine ⟨_, _, ?_, h1, h2, h3, h4, ?_⟩
  · simp only [fmtFixed]
    rw [if_neg (not_lt.mpr hn), if_neg (Nat.pos_iff_ne_zero.mp hdp),
      List.nil_append]
  · rw [h5, parseNat_natRender]

/-- Decomposition of `str(float)` for a nonnegative finite-decimal value,
together with the exact parse-back. -/
theorem ratRender_decomp (q : ℚ) (hq : 0 ≤ q) {k : ℕ}
    (hk : decExpAux q = some k) :
    ∃ A B, ratRender q = A ++ '.' :: B ∧
      (∀ c ∈ A, isDigitB c = true) ∧ (∀ c ∈ B, isDigitB c = true) ∧
      A ≠ [] ∧ B ≠ [] ∧
      (parseNat A : ℚ) + (parseNat B : ℚ) / 10 ^ B.length = q := by
  have habs : |q| = q := abs_of_nonneg hq
  have hden : (q * 10 ^ k).den = 1 := decExpAux_den hk
  set e := max k 1 with he
  have hek : k ≤ e := le_max_left _ _
  have he1 : 1 ≤ e := le_max_right _ _
  have hqe : ((q * 10 ^ k).num * 10 ^ (e - k) : ℤ) = (q * 10 ^ e : ℚ) := by
    push_cast
    rw [den_one_eq_num hden]
    rw [show (10 : ℚ) ^ e = 10 ^ k * 10 ^ (e - k) from by
      rw [← pow_add, Nat.add_sub_cancel' hek]]
    ring
  have hden_e : (q * 10 ^ e).den = 1 := by
    rw [← hqe]
    exact Rat.den_intCast _
  have hnum_e : ((q * 10 ^ e).num : ℚ) = q * 10 ^ e := den_one_eq_num hden_e
  have hn0 : 0 ≤ (q * 10 ^ e).num :=
    Rat.num_nonneg.mpr (mul_nonneg hq (by positivity))
  obtain ⟨h1, h2, h3, h4, h5⟩ :=
    padded_props (natRender (q * 10 ^ e).num.toNat) e (natRender_all_digits _)
  refine ⟨_, _, ?_, h1, h2, h3, ?_, ?_⟩
  · rw [ratRender, habs, hk]
    simp only
    rw [if_neg (not_lt.mpr hq), List.nil_append]
  · apply List.ne_nil_of_length_pos
    rw [h4]
    omega
  · rw [h4]
    rw [parseNat_natRender] at h5
    have hcast : (parseNat ((natPad (natRender (q * 10 ^ e).num.toNat) (e + 1)).take
          ((natPad (natRender (q * 10 ^ e).num.toNat) (e + 1)).length - e)) : ℚ)
          * 10 ^ e +
        (parseNat ((natPad (natRender (q * 10 ^ e).num.toNat) (e + 1)).drop
          ((natPad (natRender (q * 10 ^ e).num.toNat) (e + 1)).length - e)) : ℚ) =
        ((q * 10 ^ e).num.toNat : ℚ) := by
      exact_mod_cast congrArg (Nat.cast : ℕ → ℚ) h5
    have htn : ((q * 10 ^ e).num.toNat : ℚ) = q * 10 ^ e := by
      rw [show ((q * 10 ^ e).num.toNat : ℚ) = (((q * 10 ^ e).num.toNat : ℤ) : ℚ)
          from by push_cast; ring]
      rw [Int.toNat_of_nonneg hn0, hnum_e]
    rw [htn] at hcast
    have h10 : (10 : ℚ) ^ e ≠ 0 := by positivity
    field_simp at hcast ⊢
    linarith

/-- `float()` applied to a digits-dot-digits string. -/
theorem parseDec_split (A B : List Char)
    (hA : ∀ c ∈ A, isDigitB c = true) (hB : ∀ c ∈ B, isDigitB c = true)
    (hAne : A ≠ []) :
    parseDec (A ++ '.' :: B) = some ((parseNat A : ℚ) +
      (parseNat B : ℚ) / 10 ^ B.length) := by
  have hdotA : '.' ∉ A := fun hm => isDigitB_ne_dot (hA '.' hm) rfl
  have hdotB : '.' ∉ B := fun hm => isDigitB_ne_dot (hB '.' hm) rfl
  rw [parseDec, splitOnChar_append_cons A B hdotA, splitOnChar_not_mem hdotB]
  have hAe : A.isEmpty = false := by
    cases A with
    | nil => exact absurd rfl hAne
    | cons c t => rfl
  have hAall : A.all isDigitB = true := List.all_eq_true.mpr hA
  have hBall : B.all isDigitB = true := List.all_eq_true.mpr hB
  show (if ((!A.isEmpty || !B.isEmpty) && A.all isDigitB && B.all isDigitB) = true
      then some ((parseNat A : ℚ) + (parseNat B : ℚ) / 10 ^ B.length)
      else Option.none) =
    some ((parseNat A : ℚ) + (parseNat B : ℚ) / 10 ^ B.length)
  rw [hAe, hAall, hBall]
  rfl

/-- `float()` parse-back of a `%.dpf`-formatted nonnegative value. -/
theorem parseDec_fmtFixed (dp : ℕ) (q : ℚ) (hdp : 0 < dp) (hq : 0 ≤ q) :
    parseDec (fmtFixed dp q) = some (roundTo dp q) := by
  obtain ⟨A, B, heq, hA, hB, hAne, hBlen, hval⟩ := fmtFixed_decomp dp q hdp hq
  rw [heq, parseDec_split A B hA hB hAne, hBlen]
  congr 1
  have hn : 0 ≤ roundHalfEven (q * 10 ^ dp) :=
    roundHalfEven_nonneg (mul_nonneg hq (by positivity))
  have hcast : (parseNat A : ℚ) * 10 ^ dp + (parseNat B : ℚ) =
      ((roundHalfEven (q * 10 ^ dp)).natAbs : ℚ) := by
    exact_mod_cast congrArg (Nat.cast : ℕ → ℚ) hval
  have habs : ((roundHalfEven (q * 10 ^ dp)).natAbs : ℚ) =
      ((roundHalfEven (q * 10 ^ dp) : ℤ) : ℚ) := by
    rw [Int.cast_natAbs]
    exact congrArg (fun z : ℤ => (z : ℚ)) (abs_of_nonneg hn)
  rw [habs] at hcast
  rw [roundTo]
  have h10 : (10 : ℚ) ^ dp ≠ 0 := by positivity
  field_simp
  linarith [hcast]

theorem pyStrip_data (s : String) :
    (pyStrip s).data = rstrip (s.data.dropWhile Char.isWhitespace) := rfl

theorem rstrip_append_cons {x : Char} (hx : x.isWhitespace = false)
    (a b : List Char) : rstrip (a ++ x :: b) = a ++ x :: rstrip b := by
  rw [rstrip, rstrip]
  rw [show (a ++ x :: b).reverse = b.reverse ++ x :: a.reverse from by
    simp]
  rw [dropWhile_append_cons_neg hx]
  simp

theorem mem_rstrip {c : Char} {l : List Char} (h : c ∈ rstrip l) : c ∈ l := by
  rw [rstrip, List.mem_reverse] at h
  have := (List.dropWhile_sublist (l := l.reverse) Char.isWhitespace).subset h
  rwa [List.mem_reverse] at this

theorem noTab_append {a b : List Char} (ha : noTab a) (hb : noTab b) :
    noTab (a ++ b) := by
  intro c hc
  rcases List.mem_append.mp hc with h | h
  · exact ha c h
  · exact hb c h

theorem noTab_cons {x : Char} {l : List Char} (hx : x ≠ '\t') (hl : noTab l) :
    noTab (x :: l) := by
  intro c hc
  rcases List.mem_cons.mp hc with h | h
  · exact h ▸ hx
  · exact hl c h

theorem noTab_of_digits {l : List Char} (h : ∀ c ∈ l, isDigitB c = true) :
    noTab l := fun c hc => isDigitB_ne_tab (h c hc)

theorem noTab_natRender (n : ℕ) : noTab (natRender n) :=
  noTab_of_digits (natRender_all_digits n)

theorem noTab_intRender (i : ℤ) : noTab (intRender i) := by
  rw [intRender]
  by_cases hi : i < 0
  · rw [if_pos hi]
    exact noTab_cons (by decide) (noTab_natRender _)
  · rw [if_neg hi]
    exact noTab_natRender _

theorem noTab_natPad {l : List Char} (h : noTab l) (len : ℕ) :
    noTab (natPad l len) := by
  intro c hc
  rw [natPad, List.mem_append] at hc
  rcases hc with hc | hc
  · rw [List.eq_of_mem_replicate hc]
    decide
  · exact h c hc

theorem noTab_fmtFixed (dp : ℕ) (q : ℚ) : noTab (fmtFixed dp q) := by
  rw [fmtFixed]
  have hds : noTab (natPad (natRender (roundHalfEven (q * 10 ^ dp)).natAbs)
      (dp + 1)) := noTab_natPad (noTab_natRender _) _
  refine noTab_append (noTab_append ?_ ?_) ?_
  · by_cases hn : roundHalfEven (q * 10 ^ dp) < 0
    · rw [if_pos hn]
      intro c hc
      rw [List.mem_singleton] at hc
      subst hc
      decide
    · rw [if_neg hn]
      intro c hc
      exact absurd hc (List.not_mem_nil c)
  · exact fun c hc => hds c ((List.take_sublist _ _).subset hc)
  · by_cases hdp : dp = 0
    · rw [if_pos hdp]
      intro c hc
      exact absurd hc (List.not_mem_nil c)
    · rw [if_neg hdp]
      refine noTab_cons (by decide) ?_
      exact fun c hc => hds c ((List.drop_sublist _ _).subset hc)

theorem noTab_ratRender (q : ℚ) : noTab (ratRender q) := by
  rw [ratRender]
  cases hk : decExpAux |q| with
  | none =>
    intro c hc
    rw [List.mem_singleton] at hc
    subst hc
    decide
  | some k =>
    have hds : noTab (natPad (natRender (|q| * 10 ^ max k 1).num.toNat)
        (max k 1 + 1)) := noTab_natPad (noTab_natRender _) _
    refine noTab_append (noTab_append ?_ ?_) ?_
    · by_cases hq : q < 0
      · rw [if_pos hq]
        intro c hc
        rw [List.mem_singleton] at hc
        subst hc
        decide
      · rw [if_neg hq]
        intro c hc
        exact absurd hc (List.not_mem_nil c)
    · exact fun c hc => hds c ((List.take_sublist _ _).subset hc)
    · refine noTab_cons (by decide) ?_
      exact fun c hc => hds c ((List.drop_sublist _ _).subset hc)

theorem fmtFixed_all_digitDot {dp : ℕ} {q : ℚ} (hdp : 0 < dp) (hq : 0 ≤ q) :
    ∀ c ∈ fmtFixed dp q, isDigitDot c = true := by
  obtain ⟨A, B, heq, hA, hB, _, _, _⟩ := fmtFixed_decomp dp q hdp hq
  rw [heq]
  intro c hc
  rcases List.mem_append.mp hc with h | h
  · exact isDigitDot_of_isDigitB (hA c h)
  · rcases List.mem_cons.mp h with h | h
    · subst h
      decide
    · exact isDigitDot_of_isDigitB (hB c h)

theorem fmtFixed_ne_nil {dp : ℕ} {q : ℚ} (hdp : 0 < dp) (hq : 0 ≤ q) :
    fmtFixed dp q ≠ [] := by
  obtain ⟨A, B, heq, _, _, hAne, _, _⟩ := fmtFixed_decomp dp q hdp hq
  rw [heq]
  simp

theorem not_mem_of_noTab {l : List Char} (h : noTab l) : '\t' ∉ l :=
  fun hm => h '\t' hm rfl

theorem findSub_of_prefix_cons (lit X : List Char) (y : Char) (Y' : List Char)
    (pred : Char → Bool) (hlit : lit ≠ []) (hX : ∀ c ∈ X, pred c = true)
    (hXne : X ≠ []) (hy : pred y = false) :
    findSub lit pred (lit ++ (X ++ y :: Y')) = some X :=
  findSub_of_prefix lit X (y :: Y') pred hlit hX hXne hy

/-- Chars, nonemptiness and exact parse-back of `str(float)` on a
nonnegative finite decimal. -/
theorem ratRender_props (q : ℚ) (hq : 0 ≤ q)
    (hk : (decExpAux q).isSome = true) :
    (∀ c ∈ ratRender q, isDigitDot c = true) ∧ ratRender q ≠ [] ∧
      parseDec (ratRender q) = some q := by
  obtain ⟨k, hk'⟩ := Option.isSome_iff_exists.mp hk
  obtain ⟨A, B, heq, hA, hB, hAne, hBne, hval⟩ := ratRender_decomp q hq hk'
  refine ⟨?_, ?_, ?_⟩
  · rw [heq]
    intro c hc
    rcases List.mem_append.mp hc with h | h
    · exact isDigitDot_of_isDigitB (hA c h)
    · rcases List.mem_cons.mp h with h | h
      · subst h
        decide
      · exact isDigitDot_of_isDigitB (hB c h)
  · rw [heq]
    simp
  · rw [heq, parseDec_split A B hA hB hAne, hval]

/-- Stripping then tab-splitting a written record line: the whitespace
strip only touches the (ignored) first and last fields, and every field
comes back in place. -/
theorem stripSplit11 (f0 f1 f2 f3 f4 f5 f6 f7 f8 f9 t10 : List Char)
    (c : Char) (cs : List Char) (hf0 : f0 = c :: cs)
    (hc : c.isWhitespace = false)
    (h0 : noTab f0) (h1 : noTab f1) (h2 : noTab f2) (h3 : noTab f3)
    (h4 : noTab f4) (h5 : noTab f5) (h6 : noTab f6) (h7 : noTab f7)
    (h8 : noTab f8) (h9 : noTab f9) (ht : noTab t10) :
    (pyStrip (String.mk (joinSep '\t'
        [f0, f1, f2, f3, f4, f5, f6, f7, f8, f9, 'T' :: t10]))).data =
      f0 ++ '\t' :: (f1 ++ '\t' :: (f2 ++ '\t' :: (f3 ++ '\t' :: (f4 ++
        '\t' :: (f5 ++ '\t' :: (f6 ++ '\t' :: (f7 ++ '\t' :: (f8 ++
        '\t' :: (f9 ++ '\t' :: ('T' :: rstrip t10)))))))))) ∧
    splitOnChar '\t'
        (f0 ++ '\t' :: (f1 ++ '\t' :: (f2 ++ '\t' :: (f3 ++ '\t' :: (f4 ++
          '\t' :: (f5 ++ '\t' :: (f6 ++ '\t' :: (f7 ++ '\t' :: (f8 ++
          '\t' :: (f9 ++ '\t' :: ('T' :: rstrip t10))))))))))) =
      [f0, f1, f2, f3, f4, f5, f6, f7, f8, f9, 'T' :: rstrip t10] := by
  constructor
  · rw [pyStrip_data]
    have hJ : (String.mk (joinSep '\t'
        [f0, f1, f2, f3, f4, f5, f6, f7, f8, f9, 'T' :: t10])).data =
        f0 ++ '\t' :: (f1 ++ '\t' :: (f2 ++ '\t' :: (f3 ++ '\t' :: (f4 ++
          '\t' :: (f5 ++ '\t' :: (f6 ++ '\t' :: (f7 ++ '\t' :: (f8 ++
          '\t' :: (f9 ++ '\t' :: ('T' :: t10)))))))))) := rfl
    rw [hJ, hf0]
    rw [List.cons_append, List.dropWhile_cons, hc]
    rw [if_neg (by decide : ¬(false = true))]
    have hre : (c :: (cs ++ '\t' :: (f1 ++ '\t' :: (f2 ++ '\t' :: (f3 ++
          '\t' :: (f4 ++ '\t' :: (f5 ++ '\t' :: (f6 ++ '\t' :: (f7 ++
          '\t' :: (f8 ++ '\t' :: (f9 ++ '\t' :: ('T' :: t10)))))))))))) =
        (c :: (cs ++ '\t' :: (f1 ++ '\t' :: (f2 ++ '\t' :: (f3 ++
          '\t' :: (f4 ++ '\t' :: (f5 ++ '\t' :: (f6 ++ '\t' :: (f7 ++
          '\t' :: (f8 ++ '\t' :: (f9 ++ ['\t']))))))))))) ++ 'T' :: t10 := by
      simp [List.append_assoc]
    rw [hre, rstrip_append_cons (by decide : ('T' : Char).isWhitespace = false)]
    simp [List.append_assoc]
  · rw [splitOnChar_append_cons f0 _ (not_mem_of_noTab h0),
      splitOnChar_append_cons f1 _ (not_mem_of_noTab h1),
      splitOnChar_append_cons f2 _ (not_mem_of_noTab h2),
      splitOnChar_append_cons f3 _ (not_mem_of_noTab h3),
      splitOnChar_append_cons f4 _ (not_mem_of_noTab h4),
      splitOnChar_append_cons f5 _ (not_mem_of_noTab h5),
      splitOnChar_append_cons f6 _ (not_mem_of_noTab h6),
      splitOnChar_append_cons f7 _ (not_mem_of_noTab h7),
      splitOnChar_append_cons f8 _ (not_mem_of_noTab h8),
      splitOnChar_append_cons f9 _ (not_mem_of_noTab h9)]
    rw [splitOnChar_not_mem]
    intro hm
    rcases List.mem_cons.mp hm with h | h
    · exact absurd h.symm (by decide)
    · exact ht '\t' (mem_rstrip h) rfl

theorem noTab_decide {l : List Char}
    (h : l.all (fun c => decide (c ≠ '\t')) = true) : noTab l := by
  intro c hc
  exact of_decide_eq_true (List.all_eq_true.mp h c hc)

set_option maxRecDepth 16384 in
/-- Parsing one freshly written well-formed record line recovers the key
and the rounded values. -/
theorem parseLine_writeLine (tsF : ℚ → String) (tsP : String → ℚ)
    (k : ℤ × ℤ) (r : SectorRecord ℚ) (hts : tsRenderOk tsF)
    (hwf : recWritable k r) :
    ∃ r', parseLine tsP (String.mk (joinSep '\t' (recordFields tsF k r))) =
        Except.ok (some (k, r')) ∧
      r'.bearing = roundTo 1 r.bearing ∧
      r'.slant_distance = roundTo 2 r.slant_distance ∧
      r'.positional_distance = r.positional_distance ∧
      r'.aircraft.alt_baro = r.aircraft.alt_baro ∧
      r'.altitude_zone = k.2 := by
  obtain ⟨hk1, hk2, hb0, hsl0, ⟨p, hppos, hp0, hpsome⟩,
    ⟨a, haalt, ha0, hasome⟩, hfl, hhex, hreg, hty⟩ := hwf
  obtain ⟨c, cs, hf0c, hcws⟩ := (hts r.timestamp).2
  have hn0 : noTab (tsF r.timestamp).data := (hts r.timestamp).1
  obtain ⟨hpdot, hpne, hpparse⟩ := ratRender_props p hp0 hpsome
  obtain ⟨hadot, hane, haparse⟩ := ratRender_props a ha0 hasome
  have hn1 : noTab ("Sector ".data ++ (intRender k.1 ++ (" (".data ++
      (intRender (k.1 * 30) ++
        ('-' :: (intRender ((k.1 + 1) * 30 - 1) ++ "°)".data)))))) :=
    noTab_append (noTab_decide (by decide)) (noTab_append (noTab_intRender _)
      (noTab_append (noTab_decide (by decide)) (noTab_append
        (noTab_intRender _) (noTab_cons (by decide)
          (noTab_append (noTab_intRender _) (noTab_decide (by decide)))))))
  have hn2 : noTab ("Alt Zone ".data ++ (intRender k.2 ++ (" (".data ++
      (intRender (k.2 * 5000) ++
        ('-' :: (intRender ((k.2 + 1) * 5000 - 1) ++ " ft)".data)))))) :=
    noTab_append (noTab_decide (by decide)) (noTab_append (noTab_intRender _)
      (noTab_append (noTab_decide (by decide)) (noTab_append
        (noTab_intRender _) (noTab_cons (by decide)
          (noTab_append (noTab_intRender _) (noTab_decide (by decide)))))))
  have hn3 : noTab ("Bearing: ".data ++ (fmtFixed 1 r.bearing ++ "°".data)) :=
    noTab_append (noTab_decide (by decide))
      (noTab_append (noTab_fmtFixed _ _) (noTab_decide (by decide)))
  have hn4 : noTab ("Slant: ".data ++ (fmtFixed 2 r.slant_distance ++
      " nm".data)) :=
    noTab_append (noTab_decide (by decide))
      (noTab_append (noTab_fmtFixed _ _) (noTab_decide (by decide)))
  have hn5 : noTab ("Pos: ".data ++ (pvStr r.positional_distance ++
      " nm".data)) := by
    rw [hppos]
    exact noTab_append (noTab_decide (by decide))
      (noTab_append (noTab_ratRender p) (noTab_decide (by decide)))
  have hn6 : noTab ("Alt: ".data ++ (pvStr r.aircraft.alt_baro ++
      " ft".data)) := by
    rw [haalt]
    exact noTab_append (noTab_decide (by decide))
      (noTab_append (noTab_ratRender a) (noTab_decide (by decide)))
  have hn7 : noTab ("Hex: ".data ++ r.aircraft.hex.data) :=
    noTab_append (noTab_decide (by decide)) hhex
  have hn8 : noTab ("Flight: ".data ++ pvStr r.aircraft.flight) :=
    noTab_append (noTab_decide (by decide)) hfl
  have hn9 : noTab ("Reg: ".data ++ pvStr r.aircraft.registration) :=
    noTab_append (noTab_decide (by decide)) hreg
  have hnt : noTab ("ype: ".data ++ pvStr r.aircraft.type) :=
    noTab_append (noTab_decide (by decide)) hty
  obtain ⟨hstr, hsplit⟩ := stripSplit11 ((tsF r.timestamp).data) _ _ _ _ _ _ _
    _ _ ("ype: ".data ++ pvStr r.aircraft.type) c cs hf0c hcws
    hn0 hn1 hn2 hn3 hn4 hn5 hn6 hn7 hn8 hn9 hnt
  have hTcons : ("Type: ".data ++ pvStr r.aircraft.type) =
      'T' :: ("ype: ".data ++ pvStr r.aircraft.type) := rfl
  have hIR1 : intRender k.1 = natRender k.1.natAbs := by
    rw [intRender, if_neg (not_lt.mpr hk1)]
  have hIR2 : intRender k.2 = natRender k.2.natAbs := by
    rw [intRender, if_neg (not_lt.mpr hk2)]
  have hFs : findSub "Sector ".data isDigitB ("Sector ".data ++
      (intRender k.1 ++ (" (".data ++ (intRender (k.1 * 30) ++
        ('-' :: (intRender ((k.1 + 1) * 30 - 1) ++ "°)".data)))))) =
      some (natRender k.1.natAbs) := by
    rw [hIR1]
    exact findSub_of_prefix_cons "Sector ".data (natRender k.1.natAbs) ' ' _
      isDigitB (by decide) (natRender_all_digits _) (natRender_ne_nil _)
      (by decide)
  have hFz : findSub "Alt Zone ".data isDigitB ("Alt Zone ".data ++
      (intRender k.2 ++ (" (".data ++ (intRender (k.2 * 5000) ++
        ('-' :: (intRender ((k.2 + 1) * 5000 - 1) ++ " ft)".data)))))) =
      some (natRender k.2.natAbs) := by
    rw [hIR2]
    exact findSub_of_prefix_cons "Alt Zone ".data (natRender k.2.natAbs) ' ' _
      isDigitB (by decide) (natRender_all_digits _) (natRender_ne_nil _)
      (by decide)
  have hFb : findSub "Bearing: ".data isDigitDot ("Bearing: ".data ++
      (fmtFixed 1 r.bearing ++ "°".data)) = some (fmtFixed 1 r.bearing) :=
    findSub_of_prefix_cons "Bearing: ".data (fmtFixed 1 r.bearing) '°' []
      isDigitDot (by decide) (fmtFixed_all_digitDot (by norm_num) hb0)
      (fmtFixed_ne_nil (by norm_num) hb0) (by decide)
  have hFsl : findSub "Slant: ".data isDigitDot ("Slant: ".data ++
      (fmtFixed 2 r.slant_distance ++ " nm".data)) =
      some (fmtFixed 2 r.slant_distance) :=
    findSub_of_prefix_cons "Slant: ".data (fmtFixed 2 r.slant_distance) ' ' _
      isDigitDot (by decide) (fmtFixed_all_digitDot (by norm_num) hsl0)
      (fmtFixed_ne_nil (by norm_num) hsl0) (by decide)
  have hFp : findSub "Pos: ".data isDigitDot ("Pos: ".data ++
      (ratRender p ++ " nm".data)) = some (ratRender p) :=
    findSub_of_prefix_cons "Pos: ".data (ratRender p) ' ' _
      isDigitDot (by decide) hpdot hpne (by decide)
  have hFa : findSub "Alt: ".data isDigitDot ("Alt: ".data ++
      (ratRender a ++ " ft".data)) = some (ratRender a) :=
    findSub_of_prefix_cons "Alt: ".data (ratRender a) ' ' _
      isDigitDot (by decide) hadot hane (by decide)
  have hPb : parseDec (fmtFixed 1 r.bearing) = some (roundTo 1 r.bearing) :=
    parseDec_fmtFixed 1 _ (by norm_num) hb0
  have hPsl : parseDec (fmtFixed 2 r.slant_distance) =
      some (roundTo 2 r.slant_distance) :=
    parseDec_fmtFixed 2 _ (by norm_num) hsl0
  have hk1' : Int.ofNat k.1.natAbs = k.1 := Int.natAbs_of_nonneg hk1
  have hk2' : Int.ofNat k.2.natAbs = k.2 := Int.natAbs_of_nonneg hk2
  let A0 : ARec ℚ :=
    { hex := (match findSub "Hex: ".data isWordB
          ("Hex: ".data ++ r.aircraft.hex.data) with
        | some h => String.mk h
        | Option.none => "N/A"),
      flight := PV.str (match findSub "Flight: ".data (fun _ => true)
          ("Flight: ".data ++ pvStr r.aircraft.flight) with
        | some f => pyStrip (String.mk f)
        | Option.none => "N/A"),
      registration := PV.str (match findSub "Reg: ".data (fun _ => true)
          ("Reg: ".data ++ pvStr r.aircraft.registration) with
        | some f => pyStrip (String.mk f)
        | Option.none => "N/A"),
      type := PV.str (match findSub "Type: ".data (fun _ => true)
          ('T' :: rstrip ("ype: ".data ++ pvStr r.aircraft.type)) with
        | some f => pyStrip (String.mk f)
        | Option.none => "N/A"),
      alt_baro := PV.num a, r_dst := PV.num p }
  refine ⟨{ aircraft := A0,
            slant_distance := roundTo 2 r.slant_distance,
            positional_distance := PV.num p,
            bearing := roundTo 1 r.bearing,
            altitude_zone := k.2,
            timestamp := tsP (String.mk (c :: cs)) }, ?_, rfl, rfl,
    hppos.symm, haalt.symm, rfl⟩
  simp only [recordFields]
  rw [hTcons]
  simp only [parseLine]
  rw [hstr, hsplit]
  rw [hppos, haalt]
  rw [show pvStr (PV.num p) = ratRender p from rfl,
    show pvStr (PV.num a) = ratRender a from rfl]
  rw [hf0c, List.cons_append]
  simp only [List.isEmpty_cons, Bool.false_eq_true, if_false]
  rw [hFs, hFz, hFb, hFsl]
  simp only []
  rw [hPb, hPsl]
  simp only []
  rw [hFp, hFa]
  simp only []
  rw [hpparse, haparse]
  simp only [parseNat_natRender]
  rw [hk1', hk2']

/-- The load loop over one parseable line per key. -/
theorem loadLoop_keys (tsP : String → ℚ)
    (P : (ℤ × ℤ) → SectorRecord ℚ → Prop) (lineOf : (ℤ × ℤ) → String) :
    ∀ (ks : List (ℤ × ℤ)) (acc : RecMap ℚ),
      (∀ k ∈ ks, ∃ r', parseLine tsP (lineOf k) = Except.ok (some (k, r')) ∧
        P k r') →
      ∀ k : ℤ × ℤ,
        (k ∈ ks → ∃ r', dictFind (loadLoop tsP (ks.map lineOf) acc) k =
          some r' ∧ P k r') ∧
        (k ∉ ks → dictFind (loadLoop tsP (ks.map lineOf) acc) k =
          dictFind acc k) := by
  intro ks
  induction ks with
  | nil =>
    intro acc _ k
    exact ⟨fun h => absurd h (List.not_mem_nil k), fun _ => rfl⟩
  | cons aKey ks ih =>
    intro acc hparse k
    obtain ⟨rA, hrA, hPA⟩ := hparse aKey (List.mem_cons_self aKey ks)
    have hstep : loadLoop tsP ((aKey :: ks).map lineOf) acc =
        loadLoop tsP (ks.map lineOf) (dictInsert acc aKey rA) := by
      rw [List.map_cons, loadLoop, hrA]
    have hparse' : ∀ k ∈ ks, ∃ r',
        parseLine tsP (lineOf k) = Except.ok (some (k, r')) ∧ P k r' :=
      fun k hk => hparse k (List.mem_cons_of_mem aKey hk)
    constructor
    · intro hk
      by_cases hks : k ∈ ks
      · rw [hstep]
        exact (ih (dictInsert acc aKey rA) hparse' k).1 hks
      · have hka : k = aKey := by
          rcases List.mem_cons.mp hk with h | h
          · exact h
          · exact absurd h hks
        subst hka
        refine ⟨rA, ?_, hPA⟩
        rw [hstep, (ih (dictInsert acc k rA) hparse' k).2 hks]
        exact dictFind_insert_self acc k rA
    · intro hk
      have hka : k ≠ aKey := fun h => hk (h ▸ List.mem_cons_self aKey ks)
      have hks : k ∉ ks := fun h => hk (List.mem_cons_of_mem aKey h)
      rw [hstep, (ih (dictInsert acc aKey rA) hparse' k).2 hks]
      exact dictFind_insert_ne acc aKey k rA hka

/-- The reception-record round trip for a well-formed map: keys are
reproduced exactly, bearing and slant range come back rounded to one and
two decimals, positional range and altitude come back exactly. -/
theorem reception_round_trip (tsF : ℚ → String) (tsP : String → ℚ)
    (m : RecMap ℚ) (hts : tsRenderOk tsF)
    (hwf : ∀ q ∈ m, recWritable q.1 q.2) :
    (∀ k, dictFind m k = Option.none →
      dictFind (load_reception_records tsP (write_reception_records tsF m)) k =
        Option.none) ∧
    (∀ k r, dictFind m k = some r →
      ∃ r', dictFind (load_reception_records tsP
          (write_reception_records tsF m)) k = some r' ∧
        r'.bearing = roundTo 1 r.bearing ∧
        r'.slant_distance = roundTo 2 r.slant_distance ∧
        r'.positional_distance = r.positional_distance ∧
        r'.aircraft.alt_baro = r.aircraft.alt_baro ∧
        r'.altitude_zone = k.2) := by
  set lineOf : (ℤ × ℤ) → String := fun k =>
    match dictFind m k with
    | some r => String.mk (joinSep '\t' (recordFields tsF k r))
    | Option.none => "" with hlineOf
  set P : (ℤ × ℤ) → SectorRecord ℚ → Prop := fun k r' =>
    ∃ r, dictFind m k = some r ∧
      r'.bearing = roundTo 1 r.bearing ∧
      r'.slant_distance = roundTo 2 r.slant_distance ∧
      r'.positional_distance = r.positional_distance ∧
      r'.aircraft.alt_baro = r.aircraft.alt_baro ∧
      r'.altitude_zone = k.2 with hP
  set ks := sortLe keyLeB (m.map Prod.fst) with hks
  have hmem : ∀ k, k ∈ ks ↔ k ∈ m.map Prod.fst := fun k =>
    (sortLe_perm keyLeB (m.map Prod.fst)).mem_iff
  have hload : load_reception_records tsP (write_reception_records tsF m) =
      loadLoop tsP (ks.map lineOf) [] := by
    rw [load_reception_records, write_reception_records]
    rfl
  have hparse : ∀ k ∈ ks, ∃ r',
      parseLine tsP (lineOf k) = Except.ok (some (k, r')) ∧ P k r' := by
    intro k hk
    have hsome : (dictFind m k).isSome :=
      dictFind_isSome_of_mem_keys m k ((hmem k).mp hk)
    obtain ⟨r, hr⟩ := Option.isSome_iff_exists.mp hsome
    have hWF : recWritable k r := hwf (k, r) (dictFind_mem m k r hr)
    obtain ⟨r', heq, hprops⟩ := parseLine_writeLine tsF tsP k r hts hWF
    refine ⟨r', ?_, ⟨r, hr, hprops⟩⟩
    simp only [hlineOf, hr]
    exact heq
  have hfold := loadLoop_keys tsP P lineOf ks [] hparse
  constructor
  · intro k hnone
    have hkn : k ∉ ks := by
      rw [hmem]
      intro hmemk
      have := dictFind_isSome_of_mem_keys m k hmemk
      rw [hnone] at this
      exact absurd this (by decide)
    rw [hload, (hfold k).2 hkn]
    rfl
  · intro k r hr
    have hkm : k ∈ ks := by
      rw [hmem]
      exact List.mem_map.mpr ⟨(k, r), dictFind_mem m k r hr, rfl⟩
    obtain ⟨r', hfind, r0, hr0, hprops⟩ := (hfold k).1 hkm
    have : r0 = r := by
      rw [hr] at hr0
      injection hr0 with h
      exact h.symm
    subst this
    exact ⟨r', by rw [hload]; exact hfind, hprops⟩

/-- Any rational with denominator one is a finite decimal at exponent 0. -/
theorem decExpAux_eq_zero {q : ℚ} (h : q.den = 1) : decExpAux q = some 0 := by
  have h0 : (q * 10 ^ (0 : ℕ)).den = 1 := by
    rw [pow_zero, mul_one]
    exact h
  rw [decExpAux, show (1100 : ℕ) = 1099 + 1 from by norm_num,
    List.range_succ_eq_map, List.findSome?_cons, if_pos h0]

/-- C7: writing the reception-record file from a well-formed map and
re-parsing it reproduces the (sector, zone) keys exactly, while the
bearing comes back rounded to one decimal (the `%.1f` format), the slant
range rounded to two decimals (`%.2f`), and the positional range and
altitude exactly — so the mapping is reproduced only up to that
formatting rounding, not identically. -/
theorem C7_round_trip (tsF : ℚ → String) (tsP : String → ℚ)
    (m : RecMap ℚ) (hts : tsRenderOk tsF)
    (hwf : ∀ q ∈ m, recWritable q.1 q.2) :
    (∀ k, dictFind m k = Option.none →
      dictFind (load_reception_records tsP (write_reception_records tsF m)) k =
        Option.none) ∧
    (∀ k r, dictFind m k = some r →
      ∃ r', dictFind (load_reception_records tsP
          (write_reception_records tsF m)) k = some r' ∧
        r'.bearing = roundTo 1 r.bearing ∧
        r'.slant_distance = roundTo 2 r.slant_distance ∧
        r'.positional_distance = r.positional_distance ∧
        r'.aircraft.alt_baro = r.aircraft.alt_baro ∧
        r'.altitude_zone = k.2) :=
  reception_round_trip tsF tsP m hts hwf

/-- Witness: the round trip of the singleton map with integral bearing
45, slant 10, positional range 12 and altitude 35000 at key (0, 7). -/
theorem C7_round_trip_witness :
    ∃ r', dictFind (load_reception_records testTsP
        (write_reception_records testTsF testRecsW)) (0, 7) = some r' ∧
      r'.bearing = roundTo 1 testSectorW.bearing ∧
      r'.slant_distance = roundTo 2 testSectorW.slant_distance ∧
      r'.positional_distance = testSectorW.positional_distance ∧
      r'.aircraft.alt_baro = testSectorW.aircraft.alt_baro ∧
      r'.altitude_zone = (7 : ℤ) := by
  have hts : tsRenderOk testTsF := by
    intro t
    constructor
    · show noTab ("2025-01-01 00:00:00 UTC" : String).data
      exact noTab_decide (by decide)
    · exact ⟨'2', _, rfl, by decide⟩
  have hwf : ∀ q ∈ testRecsW, recWritable q.1 q.2 := by
    intro q hq
    rw [testRecsW, List.mem_singleton] at hq
    subst hq
    refine ⟨by decide, by decide, by norm_num [testSectorW, testSectorC7],
      by norm_num [testSectorW, testSectorC7], ⟨12, rfl, by norm_num, ?_⟩,
      ⟨35000, rfl, by norm_num, ?_⟩, noTab_decide (by decide),
      noTab_decide (by decide), noTab_decide (by decide),
      noTab_decide (by decide)⟩
    · rw [decExpAux_eq_zero (by norm_num : ((12 : ℚ)).den = 1)]
      rfl
    · rw [decExpAux_eq_zero (by norm_num : ((35000 : ℚ)).den = 1)]
      rfl
  exact (C7_round_trip testTsF testTsP testRecsW hts hwf).2 (0, 7)
    testSectorW rfl

/-- C7 (counterexample): a stored bearing of 45.67° is written as the
`%.1f` field `Bearing: 45.7°` and parses back as 45.7, so the re-parsed
mapping differs from the one written. -/
theorem C7_counterexample :
    dictFind testRecsC7 (0, 7) = some testSectorC7 ∧
    ∃ r', dictFind (load_reception_records testTsP
        (write_reception_records testTsF testRecsC7)) (0, 7) = some r' ∧
      r'.bearing = 457 / 10 ∧ testSectorC7.bearing = 4567 / 100 ∧
      r'.bearing ≠ testSectorC7.bearing := by
  have hts : tsRenderOk testTsF := by
    intro t
    constructor
    · show noTab ("2025-01-01 00:00:00 UTC" : String).data
      exact noTab_decide (by decide)
    · exact ⟨'2', _, rfl, by decide⟩
  have hwf : ∀ q ∈ testRecsC7, recWritable q.1 q.2 := by
    intro q hq
    rw [testRecsC7, List.mem_singleton] at hq
    subst hq
    refine ⟨by decide, by decide, by norm_num [testSectorC7],
      by norm_num [testSectorC7], ⟨12, rfl, by norm_num, ?_⟩,
      ⟨35000, rfl, by norm_num, ?_⟩, noTab_decide (by decide),
      noTab_decide (by decide), noTab_decide (by decide),
      noTab_decide (by decide)⟩
    · rw [decExpAux_eq_zero (by norm_num : ((12 : ℚ)).den = 1)]
      rfl
    · rw [decExpAux_eq_zero (by norm_num : ((35000 : ℚ)).den = 1)]
      rfl
  obtain ⟨r', hfind, hbr, _⟩ :=
    (reception_round_trip testTsF testTsP testRecsC7 hts hwf).2 (0, 7)
      testSectorC7 rfl
  have hfl : ⌊(4567 : ℚ) / 10⌋ = 456 := by
    rw [Int.floor_eq_iff]
    norm_num
  have hrhe : roundHalfEven ((4567 : ℚ) / 10) = 457 := by
    simp only [roundHalfEven, hfl]
    rw [if_neg (by norm_num), if_pos (by norm_num)]
    norm_num
  have hrt : roundTo 1 ((4567 : ℚ) / 100) = 457 / 10 := by
    rw [roundTo, show ((4567 : ℚ) / 100 * 10 ^ (1 : ℕ)) = 4567 / 10 from
      by norm_num, hrhe]
    norm_num
  refine ⟨rfl, r', hfind, ?_, rfl, ?_⟩
  · rw [hbr, show testSectorC7.bearing = 4567 / 100 from rfl, hrt]
  · rw [hbr, show testSectorC7.bearing = 4567 / 100 from rfl, hrt]
    norm_num

end AirSquawk
